import Mathlib

/-!
Verification development for the bottom/top fractal trading system
(files 底分型.py and 底分型微信通知.py).

Modelling conventions:
* Prices and volumes are rationals (the Python floats are treated as exact
  rational arithmetic).
* Trading-day dates are integers (day numbers); `pd.to_datetime(a) -
  pd.to_datetime(b)).days` becomes integer subtraction, and the date keys
  compared by the live monitor become integer equality.
* `np.std`'s square root is not exactly representable over ℚ, so the
  Bollinger computation takes the square-root map as a parameter `sqrtFn`
  applied to the (exact) population variance.  No theorem below depends on
  the value of `sqrtFn`: the general theorems quantify over it and every
  concrete series used has at most 20 bars, where `get_data` omits the
  Bollinger columns altogether (`if len(df) > 20`).
* A pandas column that `get_data` does not create is an absent column
  (`Option` at column level); a NaN produced by `rolling(10).mean()` is an
  absent cell (`Option` at cell level).  A comparison against an absent
  column or cell is `false`, exactly as `'x' in df.columns and ...` and
  NaN comparisons behave in the source.
-/

/-- A daily OHLCV bar.  `trade_date` is modelled as an integer day number.
`open_` is the source's `open` field (a Lean keyword). -/
structure Bar where
  date : Int
  open_ : ℚ
  high : ℚ
  low : ℚ
  close : ℚ
  vol : ℚ
deriving DecidableEq, Repr

def dummyBar : Bar := ⟨0, 0, 0, 0, 0, 0⟩

/-- `np.diff(prices)`. -/
def npDiff (prices : List ℚ) : List ℚ :=
  List.zipWith (fun a b => a - b) (prices.drop 1) prices

/-- One iteration of the Wilder loop of `calculate_rsi` (lines 22-32 of
底分型.py): from `(up, down)` and `delta`, the updated `(up, down)`. -/
def wilderStep (period : ℕ) (ud : ℚ × ℚ) (delta : ℚ) : ℚ × ℚ :=
  let upval : ℚ := if 0 < delta then delta else 0
  let downval : ℚ := if 0 < delta then 0 else -delta
  ((ud.1 * ((period : ℚ) - 1) + upval) / period,
   (ud.2 * ((period : ℚ) - 1) + downval) / period)

/-- `rs = up/down if down != 0 else 0; rsi = 100 - 100/(1+rs)`. -/
def rsiVal (ud : ℚ × ℚ) : ℚ :=
  let rs : ℚ := if ud.2 ≠ 0 then ud.1 / ud.2 else 0
  100 - 100 / (1 + rs)

/-- The seed averages of `calculate_rsi`: `seed = deltas[:period+1]`,
`up = seed[seed >= 0].sum()/period`, `down = -seed[seed < 0].sum()/period`.
Note the slice takes `period + 1` leading deltas. -/
def rsiSeedUD (prices : List ℚ) (period : ℕ) : ℚ × ℚ :=
  let seed := (npDiff prices).take (period + 1)
  ((seed.filter (fun d => decide (0 ≤ d))).sum / period,
   -((seed.filter (fun d => decide (d < 0))).sum) / period)

/-- `calculate_rsi(prices, period)` (底分型.py lines 12-35): indices below
`period` all carry the seeded value, and the loop consumes
`deltas[period-1], deltas[period], ...` from the seed averages. -/
def calculate_rsi (prices : List ℚ) (period : ℕ) : List ℚ :=
  let deltas := npDiff prices
  let ud0 := rsiSeedUD prices period
  let loopVals :=
    (((deltas.drop (period - 1)).scanl (wilderStep period) ud0).drop 1).map rsiVal
  (List.replicate (min period prices.length) (rsiVal ud0) ++ loopVals).take
    prices.length

/-- EMA recurrence `e := (p - e) * mult + e` over a price list, returning the
successive values (one per price). -/
def emaLoop (mult : ℚ) (e0 : ℚ) (ps : List ℚ) : List ℚ :=
  (ps.scanl (fun e p => (p - e) * mult + e) e0).drop 1

/-- `calculate_macd` (底分型.py lines 37-69): returns
`(macd_line, signal_line, histogram)`.  Both EMA arrays are zero before
index `slow_period - 1`, seeded there with the simple mean of the first
`slow_period` prices.  (For `27 ≤ len ≤ 34` the Python assignment
`signal_line[slow+signal-1]` raises IndexError, caught by `get_data`; no
claim exercises that region and every concrete series here has ≤ 20 bars,
where `get_data` does not call this function at all.) -/
def calculate_macd (prices : List ℚ) (fast_period slow_period signal_period : ℕ) :
    List ℚ × List ℚ × List ℚ :=
  let n := prices.length
  let seedMean : ℚ := (prices.take slow_period).sum / slow_period
  let fastMult : ℚ := 2 / ((fast_period : ℚ) + 1)
  let slowMult : ℚ := 2 / ((slow_period : ℚ) + 1)
  let tail := prices.drop slow_period
  let emaFast :=
    (List.replicate (min (slow_period - 1) n) 0 ++ seedMean :: emaLoop fastMult seedMean tail).take n
  let emaSlow :=
    (List.replicate (min (slow_period - 1) n) 0 ++ seedMean :: emaLoop slowMult seedMean tail).take n
  let macdLine := List.zipWith (fun a b => a - b) emaFast emaSlow
  let sigIdx := slow_period + signal_period - 1
  let sigSeed : ℚ := (((macdLine.drop (slow_period - 1)).take signal_period).sum) / signal_period
  let sigMult : ℚ := 2 / ((signal_period : ℚ) + 1)
  let signalLine :=
    (List.replicate (min sigIdx n) 0 ++ sigSeed :: emaLoop sigMult sigSeed (macdLine.drop (sigIdx + 1))).take n
  let histogram := List.zipWith (fun a b => a - b) macdLine signalLine
  (macdLine, signalLine, histogram)

/-- Population variance of a window, the radicand of `np.std(window)`. -/
def popVar (window : List ℚ) : ℚ :=
  let m : ℚ := window.sum / window.length
  (window.map (fun x => (x - m) ^ 2)).sum / window.length

/-- `calculate_bollinger_bands` (底分型.py lines 71-84): all three bands are
`np.zeros_like(prices)` before index `period - 1`; from there the middle
band is the trailing-window mean and the upper/lower bands sit `num_std`
standard deviations away.  `sqrtFn` stands for `np.sqrt` applied to the
population variance (see file header). -/
def calculate_bollinger_bands (sqrtFn : ℚ → ℚ) (prices : List ℚ)
    (period : ℕ) (num_std : ℚ) : List ℚ × List ℚ × List ℚ :=
  let cell := fun (i : ℕ) =>
    if period - 1 ≤ i then
      let window := (prices.drop (i - (period - 1))).take period
      let middle : ℚ := window.sum / period
      let sd := sqrtFn (popVar window)
      (middle + sd * num_std, middle, middle - sd * num_std)
    else ((0 : ℚ), (0 : ℚ), (0 : ℚ))
  let cells := (List.range prices.length).map cell
  (cells.map (fun c => c.1), cells.map (fun c => c.2.1), cells.map (fun c => c.2.2))

/-- `df['close'].rolling(n).mean()`: NaN (absent cell) before a full window
exists. -/
def rollingMean (n : ℕ) (prices : List ℚ) : List (Option ℚ) :=
  (List.range prices.length).map (fun i =>
    if n - 1 ≤ i then some (((prices.drop (i + 1 - n)).take n).sum / n) else none)

/-- The indicator-bearing data window built by `get_data` (底分型.py lines
254-299), restricted to the columns the detector and simulator read.
Columns are `none` when `get_data`'s length guard skips them. -/
structure DataFrame where
  bars : List Bar
  ma10 : List (Option ℚ)
  rsi : Option (List ℚ)
  macd : Option (List ℚ)
  macd_signal : Option (List ℚ)
  macd_hist : Option (List ℚ)
  bb_upper : Option (List ℚ)
  bb_middle : Option (List ℚ)
  bb_lower : Option (List ℚ)
deriving DecidableEq, Repr

/-- `get_data`'s indicator block: ma10 always (rolling, NaN during warm-up),
RSI only when `len(df) > 14`, MACD only when `len(df) > 26`, Bollinger only
when `len(df) > 20`.  The indicator columns are computed once over the full
series; the simulator later only slices this frame. -/
def mkDataFrame (sqrtFn : ℚ → ℚ) (bars : List Bar) : DataFrame :=
  let closes := bars.map (fun b => b.close)
  let n := bars.length
  let m := calculate_macd closes 12 26 9
  let bb := calculate_bollinger_bands sqrtFn closes 20 2
  { bars := bars
    ma10 := rollingMean 10 closes
    rsi := if 14 < n then some (calculate_rsi closes 14) else none
    macd := if 26 < n then some m.1 else none
    macd_signal := if 26 < n then some m.2.1 else none
    macd_hist := if 26 < n then some m.2.2 else none
    bb_upper := if 20 < n then some bb.1 else none
    bb_middle := if 20 < n then some bb.2.1 else none
    bb_lower := if 20 < n then some bb.2.2 else none }

def DataFrame.barAt (df : DataFrame) (i : ℕ) : Bar := df.bars.getD i dummyBar

/-- Cell `i` of an optional column: absent when the column is absent. -/
def ocell (c : Option (List ℚ)) (i : ℕ) : Option ℚ :=
  c.map (fun l => l.getD i 0)

/-- `cell < bound`, false on an absent cell (pandas NaN / missing column). -/
def oLt (a : Option ℚ) (b : ℚ) : Bool :=
  match a with
  | none => false
  | some x => decide (x < b)

/-- `cell > bound`, false on an absent cell. -/
def oGt (a : Option ℚ) (b : ℚ) : Bool :=
  match a with
  | none => false
  | some x => decide (b < x)

/-- `value ≤ cell`, false on an absent cell. -/
def leO (a : ℚ) (b : Option ℚ) : Bool :=
  match b with
  | none => false
  | some y => decide (a ≤ y)

/-- `cell ≤ value`, false on an absent cell. -/
def oLe (a : Option ℚ) (b : ℚ) : Bool :=
  match a with
  | none => false
  | some x => decide (x ≤ b)

def dDate (df : DataFrame) (i : ℕ) : Int := (df.barAt i).date

def dOpen (df : DataFrame) (i : ℕ) : ℚ := (df.barAt i).open_

def dHigh (df : DataFrame) (i : ℕ) : ℚ := (df.barAt i).high

def dLow (df : DataFrame) (i : ℕ) : ℚ := (df.barAt i).low

def dClose (df : DataFrame) (i : ℕ) : ℚ := (df.barAt i).close

def dVol (df : DataFrame) (i : ℕ) : ℚ := (df.barAt i).vol

/-- A confirmation factor: weight, reason label, and whether it is satisfied
at the bar under evaluation. -/
abbrev Factor := ℚ × String × Bool

/-- The source's sequential score accumulation: `score = 0`, then one
`if cond: score += weight` per factor, in order. -/
def evalScore (fs : List Factor) : ℚ :=
  fs.foldl (fun s f => if f.2.2 then s + f.1 else s) 0

/-- The source's sequential reason accumulation: `reason = []`, then one
`if cond: reason.append(label)` per factor, in order. -/
def evalReasons (fs : List Factor) : List String :=
  fs.foldl (fun r f => if f.2.2 then r ++ [f.2.1] else r) []

/-- Sum of the weights of the satisfied factors, the specification's reading
of the score. -/
def scoreOf (fs : List Factor) : ℚ :=
  ((fs.filter (fun f => f.2.2)).map (fun f => f.1)).sum

/-- The six confirmation factors of `identify_bottom_pattern` (底分型.py
lines 320-350), in source order, with the source's weights and labels. -/
def bottomFactors (df : DataFrame) (i : ℕ) : List Factor :=
  [(1, "阳线", decide (dOpen df i < dClose df i)),
   (1, "放量", decide (0 < i) && decide (dVol df (i - 1) < dVol df i)),
   (1, "下降趋势", oGt (df.ma10.getD i none) (dClose df i)),
   (2, "RSI低位", oLt (ocell df.rsi i) 30),
   (3/2, "布林下轨支撑", leO (dLow df i) (ocell df.bb_lower i)),
   (3/2, "MACD底部反转",
     df.macd.isSome && df.macd_hist.isSome && oLt (ocell df.macd i) 0 &&
       decide (0 < i) && oGt (ocell df.macd_hist i) ((ocell df.macd_hist (i - 1)).getD 0))]

/-- The six confirmation factors of `identify_top_pattern` (底分型.py lines
382-412), in source order. -/
def topFactors (df : DataFrame) (i : ℕ) : List Factor :=
  [(1, "阴线", decide (dClose df i < dOpen df i)),
   (1, "放量", decide (0 < i) && decide (dVol df (i - 1) < dVol df i)),
   (1, "上升趋势", oLt (df.ma10.getD i none) (dClose df i)),
   (2, "RSI高位", oGt (ocell df.rsi i) 70),
   (3/2, "布林上轨阻力", leO (dHigh df i) (ocell df.bb_upper i)),
   (3/2, "MACD顶部转向",
     df.macd.isSome && df.macd_hist.isSome && oGt (ocell df.macd i) 0 &&
       decide (0 < i) && oLt (ocell df.macd_hist i) ((ocell df.macd_hist (i - 1)).getD 0))]

/-- `low[i] < low[i-1] and low[i] < low[i+1]` (底分型.py line 316). -/
def isBottomFractal (df : DataFrame) (i : ℕ) : Bool :=
  decide (dLow df i < dLow df (i - 1)) && decide (dLow df i < dLow df (i + 1))

/-- `high[i] > high[i-1] and high[i] > high[i+1]` (底分型.py line 378). -/
def isTopFractal (df : DataFrame) (i : ℕ) : Bool :=
  decide (dHigh df (i - 1) < dHigh df i) && decide (dHigh df (i + 1) < dHigh df i)

structure BottomPattern where
  date : Int
  price : ℚ
  low : ℚ
  volume : ℚ
  score : ℚ
  reason : List String
deriving Repr

instance : DecidableEq BottomPattern := fun x y =>
  decidable_of_iff
    (x.date = y.date ∧ x.price = y.price ∧ x.low = y.low ∧ x.volume = y.volume ∧
      x.score = y.score ∧ x.reason = y.reason)
    (by cases x; cases y; simp)

structure TopPattern where
  date : Int
  price : ℚ
  high : ℚ
  volume : ℚ
  score : ℚ
  reason : List String
deriving Repr

instance : DecidableEq TopPattern := fun x y =>
  decidable_of_iff
    (x.date = y.date ∧ x.price = y.price ∧ x.high = y.high ∧ x.volume = y.volume ∧
      x.score = y.score ∧ x.reason = y.reason)
    (by cases x; cases y; simp)

/-- The pattern `identify_bottom_pattern` emits at index `i`, if any:
fractal shape required, then the additive score, emitted iff `score >= 3`. -/
def bottomPatternAt (df : DataFrame) (i : ℕ) : Option BottomPattern :=
  if isBottomFractal df i then
    let fs := bottomFactors df i
    if 3 ≤ evalScore fs then
      some ⟨dDate df i, dClose df i, dLow df i, dVol df i, evalScore fs, evalReasons fs⟩
    else none
  else none

/-- The pattern `identify_top_pattern` emits at index `i`, if any. -/
def topPatternAt (df : DataFrame) (i : ℕ) : Option TopPattern :=
  if isTopFractal df i then
    let fs := topFactors df i
    if 3 ≤ evalScore fs then
      some ⟨dDate df i, dClose df i, dHigh df i, dVol df i, evalScore fs, evalReasons fs⟩
    else none
  else none

/-- `identify_bottom_pattern` (底分型.py lines 305-365): scans
`i in range(1, len(df)-1)` over the complete series. -/
def identify_bottom_pattern (df : DataFrame) : List BottomPattern :=
  (List.range' 1 (df.bars.length - 2)).filterMap (bottomPatternAt df)

/-- `identify_top_pattern` (底分型.py lines 367-427). -/
def identify_top_pattern (df : DataFrame) : List TopPattern :=
  (List.range' 1 (df.bars.length - 2)).filterMap (topPatternAt df)

/-- The causal bottom-score factors of `backtest_strategy_realtime`
(底分型.py lines 511-541), evaluated at `prev_idx = p` on the sliced window
`df.iloc[:i+1]`.  A slice of the frame reads the very cells of the full
frame, so the factors read `df` directly.  Unlike the batch scorer there is
no `i > 0` guard on the volume and MACD factors. -/
def causalBottomFactors (df : DataFrame) (p : ℕ) : List Factor :=
  [(1, "阳线", decide (dOpen df p < dClose df p)),
   (1, "放量", decide (dVol df (p - 1) < dVol df p)),
   (1, "下降趋势", oGt (df.ma10.getD p none) (dClose df p)),
   (2, "RSI低位", oLt (ocell df.rsi p) 30),
   (3/2, "布林下轨支撑", leO (dLow df p) (ocell df.bb_lower p)),
   (3/2, "MACD底部反转",
     df.macd.isSome && df.macd_hist.isSome && oLt (ocell df.macd p) 0 &&
       oGt (ocell df.macd_hist p) ((ocell df.macd_hist (p - 1)).getD 0))]

/-- The causal top-score factors (底分型.py lines 584-607).  The source
accumulates only the score here, no reason list; the labels are kept for
uniformity but never read. -/
def causalTopFactors (df : DataFrame) (p : ℕ) : List Factor :=
  [(1, "阴线", decide (dClose df p < dOpen df p)),
   (1, "放量", decide (dVol df (p - 1) < dVol df p)),
   (1, "上升趋势", oLt (df.ma10.getD p none) (dClose df p)),
   (2, "RSI高位", oGt (ocell df.rsi p) 70),
   (3/2, "布林上轨阻力", leO (dHigh df p) (ocell df.bb_upper p)),
   (3/2, "MACD顶部转向",
     df.macd.isSome && df.macd_hist.isSome && oGt (ocell df.macd p) 0 &&
       oLt (ocell df.macd_hist p) ((ocell df.macd_hist (p - 1)).getD 0))]

/-- The causal bottom decision of processing step `i` (底分型.py lines
500-547): test the fractal at `prev_idx = i-1` and, when the score reaches
3, return `(score, reasons)` — the `pending_buy` signal. -/
def causalBottomSignal (df : DataFrame) (i : ℕ) : Option (ℚ × List String) :=
  let p := i - 1
  if isBottomFractal df p then
    if 3 ≤ evalScore (causalBottomFactors df p) then
      some (evalScore (causalBottomFactors df p), evalReasons (causalBottomFactors df p))
    else none
  else none

/-- The causal top decision of processing step `i` (底分型.py lines
574-611): the score at `prev_idx = i-1` when the top fractal holds and the
score reaches 3. -/
def causalTopScore (df : DataFrame) (i : ℕ) : Option ℚ :=
  let p := i - 1
  if isTopFractal df p then
    if 3 ≤ evalScore (causalTopFactors df p) then
      some (evalScore (causalTopFactors df p))
    else none
  else none

/-- A closed trade record. -/
structure Trade where
  buy_date : Int
  buy_price : ℚ
  buy_reason : List String
  sell_date : Int
  sell_price : ℚ
  sell_reason : String
  profit_pct : ℚ
  hold_days : Int
deriving Repr

instance : DecidableEq Trade := fun x y =>
  decidable_of_iff
    (x.buy_date = y.buy_date ∧ x.buy_price = y.buy_price ∧ x.buy_reason = y.buy_reason ∧
      x.sell_date = y.sell_date ∧ x.sell_price = y.sell_price ∧
      x.sell_reason = y.sell_reason ∧ x.profit_pct = y.profit_pct ∧
      x.hold_days = y.hold_days)
    (by cases x; cases y; simp)

/-- Build a trade record the way both simulators do:
`profit_pct = (sell-buy)/buy*100`, `hold_days` = date difference in days. -/
def mkTrade (bd : Int) (bp : ℚ) (br : List String) (sd : Int) (sp : ℚ)
    (sr : String) : Trade :=
  ⟨bd, bp, br, sd, sp, sr, (sp - bp) / bp * 100, sd - bd⟩

/-- The mutable loop state of `backtest_strategy_realtime` in 底分型.py
(lines 437-448), plus the accumulated trade list. -/
structure SimState where
  holding : Bool
  buy_price : ℚ
  buy_date : Int
  buy_reason : List String
  highest_price : ℚ
  pending_buy : Bool
  pending_buy_reason : List String
  pending_sell : Bool
  pending_sell_reason : String
  trades : List Trade
deriving Repr

instance : DecidableEq SimState := fun x y =>
  decidable_of_iff
    (x.holding = y.holding ∧ x.buy_price = y.buy_price ∧ x.buy_date = y.buy_date ∧
      x.buy_reason = y.buy_reason ∧ x.highest_price = y.highest_price ∧
      x.pending_buy = y.pending_buy ∧ x.pending_buy_reason = y.pending_buy_reason ∧
      x.pending_sell = y.pending_sell ∧ x.pending_sell_reason = y.pending_sell_reason ∧
      x.trades = y.trades)
    (by cases x; cases y; simp)

def initState : SimState := ⟨false, 0, 0, [], 0, false, [], false, "", []⟩

/-- 底分型.py lines 456-458: track the in-position high from the current
bar's `high`. -/
def updHighest (df : DataFrame) (s : SimState) (i : ℕ) : SimState :=
  if s.holding && decide (s.highest_price < dHigh df i) then
    { s with highest_price := dHigh df i }
  else s

/-- 底分型.py lines 460-468: a pending bottom-pattern entry fills at this
bar's open. -/
def execBuy (df : DataFrame) (s : SimState) (i : ℕ) : SimState :=
  if s.pending_buy && !s.holding then
    { s with buy_price := dOpen df i, buy_date := dDate df i,
             buy_reason := s.pending_buy_reason, holding := true,
             highest_price := dOpen df i, pending_buy := false }
  else s

/-- 底分型.py lines 470-494: a pending top-pattern exit fills at this bar's
open. -/
def execSell (df : DataFrame) (s : SimState) (i : ℕ) : SimState :=
  if s.pending_sell && s.holding then
    { s with trades := s.trades ++ [mkTrade s.buy_date s.buy_price s.buy_reason
               (dDate df i) (dOpen df i) s.pending_sell_reason],
             holding := false, pending_sell := false }
  else s

/-- 底分型.py lines 499-547: when flat with no pending entry, run the causal
bottom detector; a hit only sets the pending-entry flag (fill deferred). -/
def detectBuy (df : DataFrame) (s : SimState) (i : ℕ) : SimState :=
  if !s.holding && !s.pending_buy && decide (2 ≤ i) then
    match causalBottomSignal df i with
    | some sr => { s with pending_buy := true, pending_buy_reason := sr.2 }
    | none => s
  else s

def stopReason (stop_pct : ℚ) : String := s!"止损 -{stop_pct}%"

def trailReason : String := "跟踪止损 -5%"

/-- 底分型.py lines 569-728: while holding with no pending exit, compute the
causal top signal, then check the fixed stop (same-bar close fill,
`continue`), then the trailing stop (same-bar close fill, `continue`), and
only if neither fired record the top signal as a pending exit. -/
def sellRiskBlock (use_stop : Bool) (stop_pct : ℚ) (use_trail : Bool)
    (df : DataFrame) (s : SimState) (i : ℕ) : SimState :=
  if s.holding && !s.pending_sell then
    let topSig := if 2 ≤ i then causalTopScore df i else none
    if use_stop && decide (dClose df i ≤ s.buy_price * (1 - stop_pct / 100)) then
      { s with trades := s.trades ++ [mkTrade s.buy_date s.buy_price s.buy_reason
                 (dDate df i) (dClose df i) (stopReason stop_pct)],
               holding := false }
    else if use_trail && decide (s.buy_price < s.highest_price) &&
        decide (dClose df i ≤ s.highest_price * 0.95) then
      { s with trades := s.trades ++ [mkTrade s.buy_date s.buy_price s.buy_reason
                 (dDate df i) (dClose df i) trailReason],
               holding := false }
    else if topSig.isSome then
      { s with pending_sell := true, pending_sell_reason := "顶分型" }
    else s
  else s

/-- One iteration of the 底分型.py backtest loop (lines 451-728), in source
order: highest-price update, deferred entry fill, deferred exit fill,
causal entry detection, then the exit/risk block. -/
def step (use_stop : Bool) (stop_pct : ℚ) (use_trail : Bool)
    (df : DataFrame) (s : SimState) (i : ℕ) : SimState :=
  sellRiskBlock use_stop stop_pct use_trail df
    (detectBuy df (execSell df (execBuy df (updHighest df s i) i) i) i) i

/-- The loop of 底分型.py `backtest_strategy_realtime`:
`for i in range(2, len(df))`. -/
def runSim (use_stop : Bool) (stop_pct : ℚ) (use_trail : Bool)
    (df : DataFrame) : SimState :=
  (List.range' 2 (df.bars.length - 2)).foldl
    (fun s i => step use_stop stop_pct use_trail df s i) initState

/-- `backtest_strategy_realtime(hold_days, use_stop_loss, stop_loss_pct,
use_trailing_stop)` of 底分型.py (lines 429-763), returning the trade list.
The `hold_days` parameter is accepted exactly as in the source signature;
the 底分型.py body never reads it.  A position still open at the end is
force-closed at the last close with reason "回测结束". -/
def backtest_strategy_realtime (df : DataFrame) (hold_days : Int)
    (use_stop : Bool) (stop_pct : ℚ) (use_trail : Bool) : List Trade :=
  let s := runSim use_stop stop_pct use_trail df
  if s.holding && decide (0 < df.bars.length) then
    s.trades ++ [mkTrade s.buy_date s.buy_price s.buy_reason
      (dDate df (df.bars.length - 1)) (dClose df (df.bars.length - 1)) "回测结束"]
  else s.trades

/-- The aggregate statistics block (底分型.py lines 748-761). -/
structure BacktestStats where
  total_trades : ℕ
  avg_profit_pct : ℚ
  win_rate : ℚ
  total_profit_pct : ℚ
  max_profit_pct : ℚ
  max_loss_pct : ℚ
  avg_hold_days : ℚ
  details : List Trade
deriving Repr

instance : DecidableEq BacktestStats := fun x y =>
  decidable_of_iff
    (x.total_trades = y.total_trades ∧ x.avg_profit_pct = y.avg_profit_pct ∧
      x.win_rate = y.win_rate ∧ x.total_profit_pct = y.total_profit_pct ∧
      x.max_profit_pct = y.max_profit_pct ∧ x.max_loss_pct = y.max_loss_pct ∧
      x.avg_hold_days = y.avg_hold_days ∧ x.details = y.details)
    (by cases x; cases y; simp)

def mkStats (trades : List Trade) : BacktestStats :=
  let n : ℚ := trades.length
  let profits := trades.map (fun t => t.profit_pct)
  { total_trades := trades.length
    avg_profit_pct := profits.sum / n
    win_rate := ((trades.filter (fun t => decide (0 < t.profit_pct))).length : ℚ) / n
    total_profit_pct := profits.sum
    max_profit_pct := (profits.drop 1).foldl max (profits.headD 0)
    max_loss_pct := (profits.drop 1).foldl min (profits.headD 0)
    avg_hold_days := (((trades.map (fun t => t.hold_days)).sum : ℤ) : ℚ) / n
    details := trades }

/-- The dict-or-string result of `backtest_strategy_realtime`: `none` for
"没有足够的交易信号进行回测". -/
def backtestResult (df : DataFrame) (hold_days : Int) (use_stop : Bool)
    (stop_pct : ℚ) (use_trail : Bool) : Option BacktestStats :=
  let tr := backtest_strategy_realtime df hold_days use_stop stop_pct use_trail
  if tr.isEmpty then none else some (mkStats tr)

/-- One de-duplication decision of `run_live_monitor` (底分型.py lines
1104-1113): given the stored last-signal date and the date of the most
recent detected pattern, the new stored date and whether an outward alert is
emitted.  The stored date is updated whenever the latest date differs; the
alert additionally requires the date to be at most 3 days old. -/
def monitorUpdate (last : Option Int) (latest : Option Int) (now : Int) :
    Option Int × Bool :=
  match latest with
  | none => (last, false)
  | some d => if some d ≠ last then (some d, decide (now - d ≤ 3)) else (last, false)

/-- One polling cycle of the bottom-signal path of `run_live_monitor`: fetch
a bar window, run the batch detector, and apply the de-duplication rule to
the most recent pattern. -/
def monitorBottomCycle (sqrtFn : ℚ → ℚ) (last : Option Int) (bars : List Bar)
    (now : Int) : Option Int × Bool :=
  monitorUpdate last
    (((identify_bottom_pattern (mkDataFrame sqrtFn bars)).getLast?).map
      (fun p => p.date)) now

namespace WX

/-- The causal bottom-score factors of 底分型微信通知.py
`backtest_strategy_realtime` (lines 1007-1037).  This copy keeps the
`prev_idx > 0` guards on the volume and MACD factors. -/
def causalBottomFactors (df : DataFrame) (p : ℕ) : List Factor :=
  [(1, "阳线", decide (dOpen df p < dClose df p)),
   (1, "放量", decide (0 < p) && decide (dVol df (p - 1) < dVol df p)),
   (1, "下降趋势", oGt (df.ma10.getD p none) (dClose df p)),
   (2, "RSI低位", oLt (ocell df.rsi p) 30),
   (3/2, "布林下轨支撑", leO (dLow df p) (ocell df.bb_lower p)),
   (3/2, "MACD底部反转",
     df.macd.isSome && df.macd_hist.isSome && oLt (ocell df.macd p) 0 &&
       decide (0 < p) && oGt (ocell df.macd_hist p) ((ocell df.macd_hist (p - 1)).getD 0))]

/-- The causal top-score factors of 底分型微信通知.py (lines 1078-1102). -/
def causalTopFactors (df : DataFrame) (p : ℕ) : List Factor :=
  [(1, "阴线", decide (dClose df p < dOpen df p)),
   (1, "放量", decide (0 < p) && decide (dVol df (p - 1) < dVol df p)),
   (1, "上升趋势", oLt (df.ma10.getD p none) (dClose df p)),
   (2, "RSI高位", oGt (ocell df.rsi p) 70),
   (3/2, "布林上轨阻力", leO (dHigh df p) (ocell df.bb_upper p)),
   (3/2, "MACD顶部转向",
     df.macd.isSome && df.macd_hist.isSome && oGt (ocell df.macd p) 0 &&
       decide (0 < p) && oLt (ocell df.macd_hist p) ((ocell df.macd_hist (p - 1)).getD 0))]

/-- `low[prev_idx-1] > low[prev_idx] and low[prev_idx+1] > low[prev_idx]`
(lines 1000-1001). -/
def isBottomFractal (df : DataFrame) (p : ℕ) : Bool :=
  decide (dLow df p < dLow df (p - 1)) && decide (dLow df p < dLow df (p + 1))

/-- `high[prev_idx-1] < high[prev_idx] and high[prev_idx+1] < high[prev_idx]`
(lines 1072-1073). -/
def isTopFractal (df : DataFrame) (p : ℕ) : Bool :=
  decide (dHigh df (p - 1) < dHigh df p) && decide (dHigh df (p + 1) < dHigh df p)

/-- The mutable loop state of `backtest_strategy_realtime` in
底分型微信通知.py (lines 898-906): `buy_date` starts as `None`. -/
structure WState where
  holding : Bool
  buy_price : ℚ
  buy_date : Option Int
  buy_reason : List String
  highest_price : ℚ
  pending_buy : Bool
  pending_buy_reason : List String
  pending_sell : Bool
  trades : List Trade
deriving Repr

instance : DecidableEq WState := fun x y =>
  decidable_of_iff
    (x.holding = y.holding ∧ x.buy_price = y.buy_price ∧ x.buy_date = y.buy_date ∧
      x.buy_reason = y.buy_reason ∧ x.highest_price = y.highest_price ∧
      x.pending_buy = y.pending_buy ∧ x.pending_buy_reason = y.pending_buy_reason ∧
      x.pending_sell = y.pending_sell ∧ x.trades = y.trades)
    (by cases x; cases y; simp)

def initWState : WState := ⟨false, 0, none, [], 0, false, [], false, []⟩

/-- Lines 913-987: `if pending_buy and not holding: ... elif pending_sell
and holding: ...` — the deferred fills, both at this bar's open.  The
deferred exit resets every position field. -/
def execPhase (df : DataFrame) (s : WState) (i : ℕ) : WState :=
  if s.pending_buy && !s.holding then
    { s with holding := true, buy_price := dOpen df i,
             buy_date := some (dDate df i), highest_price := dOpen df i,
             buy_reason := s.pending_buy_reason, pending_buy := false,
             pending_buy_reason := [] }
  else if s.pending_sell && s.holding then
    { s with trades := s.trades ++ [mkTrade (s.buy_date.getD 0) s.buy_price
               s.buy_reason (dDate df i) (dOpen df i) "顶分型"],
             holding := false, buy_price := 0, buy_date := none,
             highest_price := 0, pending_sell := false }
  else s

/-- Lines 989-991: track the in-position high from the current bar's
`close` (this copy uses the close, not the high). -/
def updHigh (df : DataFrame) (s : WState) (i : ℕ) : WState :=
  if s.holding && decide (s.highest_price < dClose df i) then
    { s with highest_price := dClose df i }
  else s

/-- Lines 993-1043: causal bottom detection at `prev_idx = i-1`, guarded by
`i >= 3`; a hit sets only the pending-entry flag. -/
def detectBuy (df : DataFrame) (s : WState) (i : ℕ) : WState :=
  if !s.holding && !s.pending_buy && decide (3 ≤ i) then
    let p := i - 1
    if isBottomFractal df p && decide (3 ≤ evalScore (causalBottomFactors df p)) then
      { s with pending_buy := true,
               pending_buy_reason := evalReasons (causalBottomFactors df p) }
    else s
  else s

/-- Lines 1065-1129: causal top detection at `prev_idx = i-1`, guarded by
`i >= 3`; a hit sets the pending-exit flag.  Note this runs BEFORE the risk
checks of this same bar. -/
def detectSell (df : DataFrame) (s : WState) (i : ℕ) : WState :=
  if s.holding && !s.pending_sell && decide (3 ≤ i) then
    let p := i - 1
    if isTopFractal df p && decide (3 ≤ evalScore (causalTopFactors df p)) then
      { s with pending_sell := true }
    else s
  else s

def maxHoldReason (hold_days : Int) : String := s!"持有天数达到 {hold_days} 天"

/-- Lines 1131-1256: fixed stop, then trailing stop, then the max-hold
exit, each filling at this bar's close and ending the iteration
(`continue`).  None of them clears `pending_sell`. -/
def riskChain (use_stop : Bool) (stop_pct : ℚ) (use_trail : Bool)
    (hold_days : Int) (df : DataFrame) (s : WState) (i : ℕ) : WState :=
  if s.holding && use_stop &&
      decide (dClose df i ≤ s.buy_price * (1 - stop_pct / 100)) then
    { s with trades := s.trades ++ [mkTrade (s.buy_date.getD 0) s.buy_price
               s.buy_reason (dDate df i) (dClose df i) (stopReason stop_pct)],
             holding := false, buy_price := 0, buy_date := none,
             highest_price := 0 }
  else if s.holding && use_trail && decide (s.buy_price < s.highest_price) &&
      decide (dClose df i ≤ s.highest_price * 0.95) then
    { s with trades := s.trades ++ [mkTrade (s.buy_date.getD 0) s.buy_price
               s.buy_reason (dDate df i) (dClose df i) trailReason],
             holding := false, buy_price := 0, buy_date := none,
             highest_price := 0 }
  else if s.holding && s.buy_date.isSome && decide (0 < hold_days) &&
      decide (hold_days ≤ dDate df i - s.buy_date.getD 0) then
    { s with trades := s.trades ++ [mkTrade (s.buy_date.getD 0) s.buy_price
               s.buy_reason (dDate df i) (dClose df i) (maxHoldReason hold_days)],
             holding := false, buy_price := 0, buy_date := none,
             highest_price := 0 }
  else s

/-- One iteration of the 底分型微信通知.py backtest loop (lines 908-1256),
in source order. -/
def step (use_stop : Bool) (stop_pct : ℚ) (use_trail : Bool) (hold_days : Int)
    (df : DataFrame) (s : WState) (i : ℕ) : WState :=
  riskChain use_stop stop_pct use_trail hold_days df
    (detectSell df (detectBuy df (updHigh df (execPhase df s i) i) i) i) i

def runSim (use_stop : Bool) (stop_pct : ℚ) (use_trail : Bool)
    (hold_days : Int) (df : DataFrame) : WState :=
  (List.range' 2 (df.bars.length - 2)).foldl
    (fun s i => step use_stop stop_pct use_trail hold_days df s i) initWState

/-- `backtest_strategy_realtime` of 底分型微信通知.py (lines 883-1302),
returning the trade list, with the end-of-data force close (lines
1258-1278). -/
def backtest_strategy_realtime (df : DataFrame) (hold_days : Int)
    (use_stop : Bool) (stop_pct : ℚ) (use_trail : Bool) : List Trade :=
  let s := runSim use_stop stop_pct use_trail hold_days df
  if s.holding then
    s.trades ++ [mkTrade (s.buy_date.getD 0) s.buy_price s.buy_reason
      (dDate df (df.bars.length - 1)) (dClose df (df.bars.length - 1)) "回测结束"]
  else s.trades

end WX

/-- A 15-bar declining series (dates 1..15).  Bottom fractals sit at index 1
(inside the RSI warm-up region) and index 13; every RSI cell carries the
seed value 0. -/
def barsW1 : List Bar :=
  [⟨1, 100.5, 102, 99, 100, 10⟩,
   ⟨2, 97, 100, 95, 98, 20⟩,
   ⟨3, 96.5, 98, 95.5, 96, 10⟩,
   ⟨4, 94.5, 96, 93.5, 94, 10⟩,
   ⟨5, 92.5, 94, 91.5, 92, 10⟩,
   ⟨6, 90.5, 92, 89.5, 90, 10⟩,
   ⟨7, 88.5, 90, 87.5, 88, 10⟩,
   ⟨8, 86.5, 88, 85.5, 86, 10⟩,
   ⟨9, 84.5, 86, 83.5, 84, 10⟩,
   ⟨10, 82.5, 84, 81.5, 82, 10⟩,
   ⟨11, 80.5, 82, 79.5, 80, 10⟩,
   ⟨12, 78.5, 80, 77.5, 78, 10⟩,
   ⟨13, 76.5, 78, 75.5, 76, 10⟩,
   ⟨14, 74, 77, 73, 75, 20⟩,
   ⟨15, 74.5, 76, 73.5, 74, 12⟩]

/-- `barsW1` extended by two later bars (dates 16, 17); the most recent
bottom pattern moves to date 16. -/
def barsW2 : List Bar :=
  barsW1 ++ [⟨16, 72.5, 75, 72, 73, 30⟩, ⟨17, 73.2, 75, 72.5, 73, 5⟩]

/-- 16-bar series (dates 1..16).  The causal decision of step 3 examines
index 2; the RSI cell there is the Wilder seed of the FULL series. -/
def barsC2A : List Bar :=
  [⟨1, 100, 101, 99.5, 100, 5⟩,
   ⟨2, 101, 102, 100, 101, 10⟩,
   ⟨3, 99, 101, 95, 100, 20⟩,
   ⟨4, 99, 100, 96, 99, 10⟩,
   ⟨5, 99, 100, 58, 99, 10⟩,
   ⟨6, 60, 61, 59, 60, 10⟩,
   ⟨7, 60, 61, 59, 60, 10⟩,
   ⟨8, 60, 61, 59, 60, 10⟩,
   ⟨9, 60, 61, 59, 60, 10⟩,
   ⟨10, 60, 61, 59, 60, 10⟩,
   ⟨11, 60, 61, 59, 60, 10⟩,
   ⟨12, 60, 61, 59, 60, 10⟩,
   ⟨13, 60, 61, 59, 60, 10⟩,
   ⟨14, 60, 61, 59, 60, 10⟩,
   ⟨15, 60, 61, 59, 60, 10⟩,
   ⟨16, 60, 61, 59, 60, 10⟩]

/-- `barsC2A` with only bar 4 (the bar AFTER decision step 3) replaced. -/
def barsC2B : List Bar :=
  barsC2A.take 4 ++ [⟨5, 160, 161, 150, 160, 10⟩] ++ barsC2A.drop 5

/-- 15-bar series (dates 1..15) for the 底分型微信通知.py simulator: a
bottom signal at step 3 (buy at the open of date 5), a top signal detected
at step 10 on the same bar where the fixed stop fires (date 11), a fresh
bottom signal at step 11 and re-entry at date 13 — after which the stale
`pending_sell` flag fires a "顶分型" sale at date 14 without any new top
signal. -/
def barsC4 : List Bar :=
  [⟨1, 100, 101, 99, 100, 10⟩,
   ⟨2, 100.8, 102, 100, 101, 10⟩,
   ⟨3, 101, 103, 95, 102, 20⟩,
   ⟨4, 102.8, 104, 102, 103, 10⟩,
   ⟨5, 100, 105, 99.9, 104, 10⟩,
   ⟨6, 104, 106, 103, 105, 10⟩,
   ⟨7, 105, 107, 104, 106, 10⟩,
   ⟨8, 106, 108, 105, 107, 10⟩,
   ⟨9, 107, 109, 106, 108, 10⟩,
   ⟨10, 110.5, 111, 109, 110, 30⟩,
   ⟨11, 79.5, 85, 79, 80, 40⟩,
   ⟨12, 81.2, 83, 80.5, 81, 10⟩,
   ⟨13, 81, 83, 80.8, 81, 10⟩,
   ⟨14, 82, 83, 79.8, 80, 10⟩,
   ⟨15, 80, 81, 79, 80, 10⟩]

/-- Three bars with a trailing-stop boundary test at bar 2; close 114.01. -/
def barsC7A : List Bar :=
  [⟨1, 100, 118, 99, 100, 10⟩,
   ⟨2, 100, 117, 99, 100, 10⟩,
   ⟨3, 114, 115, 113, 114.01, 10⟩]

/-- Same as `barsC7A` but the final close is exactly 114. -/
def barsC7B : List Bar :=
  [⟨1, 100, 118, 99, 100, 10⟩,
   ⟨2, 100, 117, 99, 100, 10⟩,
   ⟨3, 114, 115, 113, 114, 10⟩]

/-- A holding state: entry at 100, peak since entry 120. -/
def stateC7 : SimState :=
  ⟨true, 100, 0, [], 120, false, [], false, "", []⟩

/-- A flat state with a pending bottom-pattern entry. -/
def sC3 : SimState :=
  ⟨false, 0, 0, [], 0, true, ["阳线"], false, "", []⟩

/-- The sell reasons 底分型.py can record during the loop: the deferred
top-pattern exit, the fixed stop, or the trailing stop. -/
def sellReasonOK (sp : ℚ) (t : Trade) : Prop :=
  t.sell_reason = "顶分型" ∨ t.sell_reason = stopReason sp ∨
    t.sell_reason = trailReason

/-- Loop invariant of the 底分型.py simulator: every recorded trade carries
one of the three in-loop sell reasons, and a set pending exit always
carries the top-pattern reason. -/
def reasonsOK (sp : ℚ) (s : SimState) : Prop :=
  (∀ t ∈ s.trades, sellReasonOK sp t) ∧
  (s.pending_sell = true → s.pending_sell_reason = "顶分型")

/-- A holding 微信通知-simulator state bought at date 1 for 100. -/
def sC10 : WX.WState :=
  ⟨true, 100, some 1, [], 100, false, [], false, []⟩

/-- The three bars of the specification's worked example C8. -/
def barsC8 : List Bar :=
  [⟨1, 10, 11, 9, 10.5, 100⟩,
   ⟨2, 10.5, 10.6, 9.5, 9.8, 90⟩,
   ⟨3, 9.8, 10.2, 9.6, 10, 150⟩]

/-- A tiny hand-built frame with an RSI column: both a bottom and a top
fractal at index 1. -/
def dfSmall : DataFrame :=
  ⟨[⟨1, 100, 99.5, 99, 100, 10⟩, ⟨2, 97, 103, 95, 98, 20⟩, ⟨3, 99, 101, 96, 99, 15⟩],
   [none, none, none], some [10, 10, 10], none, none, none, none, none, none⟩

/-- The price list of the C6 counterexample. -/
def pricesC6 : List ℚ := [10, 11, 9, 6, 6, 6]

/-- Modelled from the claim's words (C6): the seed averages taken from the
first `period` price deltas (the source takes `period + 1`). -/
def rsiClaimSeedUD (prices : List ℚ) (period : ℕ) : ℚ × ℚ :=
  let seed := (npDiff prices).take period
  ((seed.filter (fun d => decide (0 ≤ d))).sum / period,
   -((seed.filter (fun d => decide (d < 0))).sum) / period)

lemma evalScore_go (fs : List Factor) :
    ∀ a : ℚ, fs.foldl (fun s f => if f.2.2 then s + f.1 else s) a = a + scoreOf fs := by
  induction fs with
  | nil => intro a; simp [scoreOf]
  | cons f t ih =>
    intro a
    simp only [List.foldl_cons, ih, scoreOf, List.filter_cons]
    rcases f with ⟨w, lbl, b⟩
    cases b <;> simp <;> ring

lemma evalScore_eq_scoreOf (fs : List Factor) : evalScore fs = scoreOf fs := by
  simpa using evalScore_go fs 0

lemma scoreOf_perm {l1 l2 : List Factor} (h : l1.Perm l2) : scoreOf l1 = scoreOf l2 := by
  unfold scoreOf
  exact ((h.filter (fun f => f.2.2)).map (fun f => f.1)).sum_eq

lemma scoreOf_append (l : List Factor) (x : Factor) :
    scoreOf (l ++ [x]) = scoreOf l + (if x.2.2 then x.1 else 0) := by
  rcases x with ⟨w, lbl, b⟩
  cases b <;> simp [scoreOf, List.filter_append]

lemma bottomPatternAt_isSome (df : DataFrame) (i : ℕ)
    (hfrac : isBottomFractal df i = true) :
    (bottomPatternAt df i).isSome ↔ 3 ≤ evalScore (bottomFactors df i) := by
  constructor
  · intro h
    by_contra hlt
    simp [bottomPatternAt, hfrac, hlt] at h
  · intro h
    simp [bottomPatternAt, hfrac, h]

lemma topPatternAt_isSome (df : DataFrame) (i : ℕ)
    (hfrac : isTopFractal df i = true) :
    (topPatternAt df i).isSome ↔ 3 ≤ evalScore (topFactors df i) := by
  constructor
  · intro h
    by_contra hlt
    simp [topPatternAt, hfrac, hlt] at h
  · intro h
    simp [topPatternAt, hfrac, h]

/-- C1: for every fractal candidate at index i, the detector's score is the
exact sum of the weights of the satisfied confirmation factors (+1 bullish
candle, +1 volume expansion, +1 close-vs-MA10 trend, +2 RSI extreme, +1.5
Bollinger-band touch, +1.5 MACD momentum); the sum is order-independent
(invariant under any permutation of the factor list), appending a further
satisfied factor of nonnegative weight never decreases it (and every weight
used is nonnegative), and a pattern is emitted at i iff the total score is
at least 3; the same holds for the mirror top detector. -/
theorem C1_score_sum_threshold (df : DataFrame) (i : ℕ) :
    (isBottomFractal df i = true →
      evalScore (bottomFactors df i) = scoreOf (bottomFactors df i) ∧
      (∀ l, (bottomFactors df i).Perm l → scoreOf l = evalScore (bottomFactors df i)) ∧
      (∀ w lbl, 0 ≤ w →
        evalScore (bottomFactors df i) ≤ scoreOf (bottomFactors df i ++ [(w, lbl, true)])) ∧
      (∀ f ∈ bottomFactors df i, 0 ≤ f.1) ∧
      ((bottomPatternAt df i).isSome ↔ 3 ≤ evalScore (bottomFactors df i))) ∧
    (isTopFractal df i = true →
      evalScore (topFactors df i) = scoreOf (topFactors df i) ∧
      (∀ l, (topFactors df i).Perm l → scoreOf l = evalScore (topFactors df i)) ∧
      (∀ w lbl, 0 ≤ w →
        evalScore (topFactors df i) ≤ scoreOf (topFactors df i ++ [(w, lbl, true)])) ∧
      (∀ f ∈ topFactors df i, 0 ≤ f.1) ∧
      ((topPatternAt df i).isSome ↔ 3 ≤ evalScore (topFactors df i))) := by
  constructor
  · intro hfrac
    refine ⟨evalScore_eq_scoreOf _, ?_, ?_, ?_, bottomPatternAt_isSome df i hfrac⟩
    · intro l hl
      rw [← scoreOf_perm hl, evalScore_eq_scoreOf]
    · intro w lbl hw
      rw [evalScore_eq_scoreOf, scoreOf_append]
      simp [hw]
    · intro f hf
      simp only [bottomFactors, List.mem_cons] at hf
      rcases hf with h | h | h | h | h | h | h
      all_goals first
        | (subst h; norm_num)
        | simp at h
  · intro hfrac
    refine ⟨evalScore_eq_scoreOf _, ?_, ?_, ?_, topPatternAt_isSome df i hfrac⟩
    · intro l hl
      rw [← scoreOf_perm hl, evalScore_eq_scoreOf]
    · intro w lbl hw
      rw [evalScore_eq_scoreOf, scoreOf_append]
      simp [hw]
    · intro f hf
      simp only [topFactors, List.mem_cons] at hf
      rcases hf with h | h | h | h | h | h | h
      all_goals first
        | (subst h; norm_num)
        | simp at h

/-- Witness for C1 at a concrete frame: a bottom-fractal candidate at index
1 whose score survives reversing the factor list, and which is emitted. -/
theorem C1_witness :
    scoreOf ((bottomFactors dfSmall 1).reverse) = evalScore (bottomFactors dfSmall 1) ∧
    (bottomPatternAt dfSmall 1).isSome ∧
    scoreOf ((topFactors dfSmall 1).reverse) = evalScore (topFactors dfSmall 1) ∧
    ¬ (topPatternAt dfSmall 1).isSome := by
  have hb := (C1_score_sum_threshold dfSmall 1).1 (by with_unfolding_all decide)
  have ht := (C1_score_sum_threshold dfSmall 1).2 (by with_unfolding_all decide)
  refine ⟨hb.2.1 _ (List.reverse_perm _).symm, ?_, ht.2.1 _ (List.reverse_perm _).symm, ?_⟩
  · exact (hb.2.2.2.2).mpr (by with_unfolding_all decide)
  · intro h
    have h2 := (ht.2.2.2.2).mp h
    revert h2
    with_unfolding_all decide

lemma scanl_getElem?_foldl {α β : Type} (f : α → β → α) :
    ∀ (l : List β) (a : α) (k : ℕ), k ≤ l.length →
      (l.scanl f a)[k]? = some (List.foldl f a (l.take k)) := by
  intro l
  induction l with
  | nil =>
    intro a k hk
    have hk0 : k = 0 := Nat.le_zero.mp hk
    subst hk0
    simp [List.scanl]
  | cons b t ih =>
    intro a k hk
    cases k with
    | zero => simp [List.scanl]
    | succ k =>
      have hk2 : k ≤ t.length := by simpa using hk
      simp [List.scanl, ih (f a b) k hk2]

lemma npDiff_length (prices : List ℚ) : (npDiff prices).length = prices.length - 1 := by
  simp [npDiff]

/-- Warm-up region of `calculate_rsi`: every index below `period` carries
the seeded RSI value (present, not absent). -/
lemma calculate_rsi_seed_region (prices : List ℚ) (period j : ℕ) (d : ℚ)
    (hj : j < period) (hl : j < prices.length) :
    (calculate_rsi prices period).getD j d = rsiVal (rsiSeedUD prices period) := by
  unfold calculate_rsi
  have hm : j < min period prices.length := lt_min hj hl
  rw [List.getD_eq_getElem?_getD, List.getElem?_take]
  simp only [hl, if_true]
  rw [List.getElem?_append]
  simp [List.length_replicate, hm, List.getElem?_replicate]

/-- Loop region of `calculate_rsi`: the value at index `i ≥ period` is the
Wilder fold of `deltas[period-1 .. i-1]` started from the seed averages. -/
lemma calculate_rsi_loop_region (prices : List ℚ) (period i : ℕ) (d : ℚ)
    (hp : 1 ≤ period) (hpi : period ≤ i) (hl : i < prices.length) :
    (calculate_rsi prices period).getD i d =
      rsiVal (List.foldl (wilderStep period) (rsiSeedUD prices period)
        (((npDiff prices).drop (period - 1)).take (i + 1 - period))) := by
  unfold calculate_rsi
  have hm : min period prices.length = period :=
    min_eq_left (le_trans hpi (le_of_lt hl))
  have hd : (npDiff prices).length = prices.length - 1 := npDiff_length prices
  have hds : (((npDiff prices).drop (period - 1))).length = prices.length - period := by
    simp [hd]
    omega
  have hk : 1 + (i - period) ≤ (((npDiff prices).drop (period - 1))).length := by
    rw [hds]
    omega
  rw [List.getD_eq_getElem?_getD, List.getElem?_take]
  simp only [hl, if_true]
  rw [List.getElem?_append_right]
  · rw [List.length_replicate, hm]
    rw [List.getElem?_map, List.getElem?_drop,
      scanl_getElem?_foldl (wilderStep period) _ _ _ hk]
    have : 1 + (i - period) = i + 1 - period := by omega
    simp [this]
  · rw [List.length_replicate, hm]
    exact hpi

/-- C6 counterexample: on `pricesC6 = [10,11,9,6,6,6]` with `period = 2`,
the seeded RSI value produced by `calculate_rsi` is 50/3, not the 100/3
that seeding from the first `period` deltas (as the claim states) would
give: the source seeds from `deltas[:period+1]`, i.e. the first `period+1`
deltas. -/
theorem C6_counterexample :
    (calculate_rsi pricesC6 2).getD 0 0 ≠ rsiVal (rsiClaimSeedUD pricesC6 2) ∧
    (calculate_rsi pricesC6 2).getD 0 0 = rsiVal (rsiSeedUD pricesC6 2) ∧
    (calculate_rsi pricesC6 2).getD 0 0 = 50 / 3 ∧
    rsiVal (rsiClaimSeedUD pricesC6 2) = 100 / 3 := by
  with_unfolding_all decide

/-- C6 amended: `calculate_rsi` seeds its average gain and loss from the
first `period + 1` price deltas (each sum divided by `period`), assigns
that seeded RSI to every index below `period`, and for `i ≥ period` the
value is the Wilder recurrence `(prevAvg*(period-1)+value)/period` folded
over `deltas[period-1 .. i-1]` from the seed (so the last two seed deltas
are consumed twice); RSI is `100 - 100/(1+rs)` with the relative strength
`rs` treated as 0 whenever the average loss is 0. -/
theorem C6_rsi_seed_and_recurrence (prices : List ℚ) (period : ℕ)
    (hp : 1 ≤ period) :
    (∀ j, j < period → j < prices.length →
        (calculate_rsi prices period).getD j 0 = rsiVal (rsiSeedUD prices period)) ∧
    (∀ i, period ≤ i → i < prices.length →
        (calculate_rsi prices period).getD i 0 =
          rsiVal (List.foldl (wilderStep period) (rsiSeedUD prices period)
            (((npDiff prices).drop (period - 1)).take (i + 1 - period)))) ∧
    (∀ ud : ℚ × ℚ, ud.2 = 0 → rsiVal ud = 0) ∧
    (rsiSeedUD prices period =
      ((((npDiff prices).take (period + 1)).filter (fun x => decide (0 ≤ x))).sum / period,
       -((((npDiff prices).take (period + 1)).filter (fun x => decide (x < 0))).sum) / period)) := by
  refine ⟨?_, ?_, ?_, rfl⟩
  · intro j hj hl
    exact calculate_rsi_seed_region prices period j 0 hj hl
  · intro i hpi hl
    exact calculate_rsi_loop_region prices period i 0 hp hpi hl
  · intro ud h
    simp [rsiVal, h]

/-- Witness for the amended C6 at `pricesC6`, `period = 2`: the seed value
at index 1, the folded value at index 3, and `rs = 0` on zero loss. -/
theorem C6_witness :
    (calculate_rsi pricesC6 2).getD 1 0 = rsiVal (rsiSeedUD pricesC6 2) ∧
    (calculate_rsi pricesC6 2).getD 3 0 =
      rsiVal (List.foldl (wilderStep 2) (rsiSeedUD pricesC6 2)
        (((npDiff pricesC6).drop 1).take 2)) ∧
    rsiVal ((5 : ℚ), 0) = 0 := by
  have h := C6_rsi_seed_and_recurrence pricesC6 2 (by norm_num)
  refine ⟨h.1 1 (by norm_num) (by with_unfolding_all decide), ?_, h.2.2.1 (5, 0) rfl⟩
  have h2 := h.2.1 3 (by norm_num) (by with_unfolding_all decide)
  simpa using h2

lemma evalReasons_go (fs : List Factor) :
    ∀ acc : List String,
      fs.foldl (fun r f => if f.2.2 then r ++ [f.2.1] else r) acc =
        acc ++ fs.foldl (fun r f => if f.2.2 then r ++ [f.2.1] else r) [] := by
  induction fs with
  | nil => intro acc; simp
  | cons f t ih =>
    intro acc
    rcases f with ⟨w, lbl, b⟩
    cases b
    · simpa using ih acc
    · simp only [List.foldl_cons, if_true, List.nil_append]
      rw [ih (acc ++ [lbl]), ih [lbl], List.append_assoc]

lemma mem_evalReasons {lbl : String} {fs : List Factor}
    (h : lbl ∈ evalReasons fs) : ∃ f, f ∈ fs ∧ f.2.1 = lbl ∧ f.2.2 = true := by
  induction fs with
  | nil => simp [evalReasons] at h
  | cons f t ih =>
    rcases f with ⟨w, l2, b⟩
    unfold evalReasons at h
    rw [List.foldl_cons] at h
    cases b
    · simp only [if_neg Bool.false_ne_true] at h
      rcases ih h with ⟨g, hg, h1, h2⟩
      exact ⟨g, List.mem_cons_of_mem _ hg, h1, h2⟩
    · simp only [if_true] at h
      rw [evalReasons_go] at h
      rcases List.mem_append.mp h with h1 | h2
      · have h3 : lbl = l2 := by simpa using h1
        exact ⟨(w, l2, true), List.mem_cons_self _ _, h3.symm, rfl⟩
      · rcases ih h2 with ⟨g, hg, ha, hb⟩
        exact ⟨g, List.mem_cons_of_mem _ hg, ha, hb⟩

lemma rsi_label_not_emitted (b1 b2 b3 b5 b6 : Bool) :
    "RSI低位" ∉ evalReasons [(1, "阳线", b1), (1, "放量", b2), (1, "下降趋势", b3),
      (2, "RSI低位", false), (3/2, "布林下轨支撑", b5), (3/2, "MACD底部反转", b6)] := by
  intro h
  rcases mem_evalReasons h with ⟨f, hf, hlbl, hcond⟩
  simp only [List.mem_cons] at hf
  rcases hf with h1 | h1 | h1 | h1 | h1 | h1 | h1
  · subst h1; simp at hlbl
  · subst h1; simp at hlbl
  · subst h1; simp at hlbl
  · subst h1; simp at hcond
  · subst h1; simp at hlbl
  · subst h1; simp at hlbl
  · exact absurd h1 (List.not_mem_nil f)

set_option maxRecDepth 4000 in
set_option maxHeartbeats 1000000 in
/-- C5 counterexample: in the 15-bar frame over `barsW1` the RSI column
exists and its cell at index 1 — deep inside RSI's 14-bar warm-up — is
present with the seed value 0, not absent; the bottom candidate at index 1
receives the "RSI低位" weight (+2, total score 4) although index 1 lies in
the warm-up region, refuting "a candidate at a bar inside an indicator's
warm-up region never receives that factor's weight". -/
theorem C5_counterexample :
    (1 : ℕ) < 14 ∧
    ocell (mkDataFrame id barsW1).rsi 1 = some 0 ∧
    bottomPatternAt (mkDataFrame id barsW1) 1 =
      some ⟨2, 98, 95, 20, 4, ["阳线", "放量", "RSI低位"]⟩ ∧
    "RSI低位" ∈ (["阳线", "放量", "RSI低位"] : List String) := by
  with_unfolding_all decide

/-- C5 amended: absence is column-level, not cell-level.  A series no
longer than an indicator's `get_data` guard omits that whole column, and an
absent RSI column contributes no "RSI低位" factor; the moving average is
the one indicator whose warm-up cells are truly absent (NaN).  But inside a
long-enough series the Bollinger warm-up cells are filled with 0 and every
RSI index below `period` is filled with the seed value — present values, so
a factor can still fire inside an indicator's warm-up region (see the
counterexample). -/
theorem C5_warmup_absence (sqrtFn : ℚ → ℚ) (bars : List Bar) :
    (bars.length ≤ 14 → (mkDataFrame sqrtFn bars).rsi = none) ∧
    (bars.length ≤ 20 → (mkDataFrame sqrtFn bars).bb_lower = none ∧
                        (mkDataFrame sqrtFn bars).bb_upper = none) ∧
    (bars.length ≤ 26 → (mkDataFrame sqrtFn bars).macd = none ∧
                        (mkDataFrame sqrtFn bars).macd_hist = none) ∧
    (∀ df : DataFrame, ∀ i, df.rsi = none →
        oLt (ocell df.rsi i) 30 = false ∧
        "RSI低位" ∉ evalReasons (bottomFactors df i)) ∧
    (∀ prices : List ℚ, ∀ j, j < 9 → j < prices.length →
        (rollingMean 10 prices).getD j (some 0) = none) ∧
    (∀ prices : List ℚ, ∀ period : ℕ, ∀ num d : ℚ, ∀ j : ℕ,
        j < period - 1 → j < prices.length →
        (calculate_bollinger_bands sqrtFn prices period num).2.2.getD j d = 0) ∧
    (∀ prices : List ℚ, ∀ period j, ∀ d : ℚ, j < period → j < prices.length →
        (calculate_rsi prices period).getD j d = rsiVal (rsiSeedUD prices period)) := by
  refine ⟨?_, ?_, ?_, ?_, ?_, ?_, ?_⟩
  · intro h
    simp [mkDataFrame, Nat.not_lt.mpr h]
  · intro h
    constructor <;> simp [mkDataFrame, Nat.not_lt.mpr h]
  · intro h
    constructor <;> simp [mkDataFrame, Nat.not_lt.mpr h]
  · intro df i hrsi
    have hcell : ocell df.rsi i = none := by simp [ocell, hrsi]
    refine ⟨by simp [hcell, oLt], ?_⟩
    have hfac : bottomFactors df i =
        [(1, "阳线", decide (dOpen df i < dClose df i)),
         (1, "放量", decide (0 < i) && decide (dVol df (i - 1) < dVol df i)),
         (1, "下降趋势", oGt (df.ma10.getD i none) (dClose df i)),
         (2, "RSI低位", false),
         (3/2, "布林下轨支撑", leO (dLow df i) (ocell df.bb_lower i)),
         (3/2, "MACD底部反转",
           df.macd.isSome && df.macd_hist.isSome && oLt (ocell df.macd i) 0 &&
             decide (0 < i) && oGt (ocell df.macd_hist i) ((ocell df.macd_hist (i - 1)).getD 0))] := by
      simp [bottomFactors, hcell, oLt]
    rw [hfac]
    exact rsi_label_not_emitted _ _ _ _ _
  · intro prices j hj hl
    rw [List.getD_eq_getElem?_getD]
    simp [rollingMean, List.getElem?_map, List.getElem?_range, hl, Nat.not_le.mpr hj]
  · intro prices period num d j hj hl
    have hc1 : ¬ (period - 1 ≤ j) := Nat.not_le.mpr hj
    have hc2 : ¬ (period ≤ j + 1) := by omega
    rw [List.getD_eq_getElem?_getD]
    simp [calculate_bollinger_bands, List.getElem?_map, List.getElem?_range, hl,
      hc1, hc2]
  · intro prices period j d hj hl
    exact calculate_rsi_seed_region prices period j d hj hl

set_option maxRecDepth 4000 in
set_option maxHeartbeats 1000000 in
/-- Witness for the amended C5: the 3-bar series `barsC8` has no RSI,
Bollinger or MACD columns; an absent RSI column yields no "RSI低位"
reason; ma10 cell 1 of `barsW1` is absent; Bollinger cell 1 is a stored 0;
RSI cell 1 of `barsW1`'s closes carries the seed value. -/
theorem C5_witness :
    (mkDataFrame id barsC8).rsi = none ∧
    (mkDataFrame id barsC8).bb_lower = none ∧
    (mkDataFrame id barsC8).macd = none ∧
    ("RSI低位" ∉ evalReasons (bottomFactors (mkDataFrame id barsC8) 1)) ∧
    (rollingMean 10 (barsW1.map (fun b => b.close))).getD 1 (some 0) = none ∧
    (calculate_bollinger_bands id (barsW1.map (fun b => b.close)) 20 2).2.2.getD 1 99 = 0 ∧
    (calculate_rsi (barsW1.map (fun b => b.close)) 14).getD 1 99 =
      rsiVal (rsiSeedUD (barsW1.map (fun b => b.close)) 14) := by
  have h3 := C5_warmup_absence id barsC8
  have hlen3 : barsC8.length ≤ 14 := by with_unfolding_all decide
  have hlen20 : barsC8.length ≤ 20 := by with_unfolding_all decide
  have hlen26 : barsC8.length ≤ 26 := by with_unfolding_all decide
  have hrsi : (mkDataFrame id barsC8).rsi = none := h3.1 hlen3
  have c2 : (mkDataFrame id barsC8).bb_lower = none := (h3.2.1 hlen20).1
  have c3 : (mkDataFrame id barsC8).macd = none := (h3.2.2.1 hlen26).1
  have c4 : "RSI低位" ∉ evalReasons (bottomFactors (mkDataFrame id barsC8) 1) :=
    (h3.2.2.2.1 (mkDataFrame id barsC8) 1 hrsi).2
  have c5 : (rollingMean 10 (barsW1.map (fun b => b.close))).getD 1 (some 0) = none := by
    with_unfolding_all decide
  have c6 : (calculate_bollinger_bands id (barsW1.map (fun b => b.close)) 20 2).2.2.getD 1 99 = 0 := by
    with_unfolding_all decide
  have c7 : (calculate_rsi (barsW1.map (fun b => b.close)) 14).getD 1 99 =
      rsiVal (rsiSeedUD (barsW1.map (fun b => b.close)) 14) := by
    with_unfolding_all decide
  exact ⟨hrsi, c2, c3, c4, c5, c6, c7⟩

set_option maxRecDepth 4000 in
set_option maxHeartbeats 1000000 in
/-- C8 counterexample: on the specification's worked-example bars the
bottom-fractal test at the middle bar FAILS — low[d2] = 9.5 is not below
low[d1] = 9 — so no candidate is scored, the batch detector emits nothing
and the causal step where d3 is the newest bar emits no signal, contrary to
the claim that the fractal holds and a volume factor fires. -/
theorem C8_counterexample :
    isBottomFractal (mkDataFrame id barsC8) 1 = false ∧
    ¬ (dLow (mkDataFrame id barsC8) 1 < dLow (mkDataFrame id barsC8) 0) ∧
    identify_bottom_pattern (mkDataFrame id barsC8) = [] ∧
    causalBottomSignal (mkDataFrame id barsC8) 2 = none := by
  with_unfolding_all decide

set_option maxRecDepth 4000 in
set_option maxHeartbeats 1000000 in
/-- C8 amended: on the worked-example bars low[d2] = 9.5 ≥ 9 = low[d1], so
the three-bar bottom test fails, no factors are evaluated and no signal is
produced — causally (step 2, newest bar d3) or in batch; moreover the
volume factor of a candidate at index i compares volume[i] against
volume[i-1] (here 90 vs 100, false), never the next bar's 150. -/
theorem C8_worked_example :
    dLow (mkDataFrame id barsC8) 1 = 9.5 ∧
    dLow (mkDataFrame id barsC8) 0 = 9 ∧
    isBottomFractal (mkDataFrame id barsC8) 1 = false ∧
    identify_bottom_pattern (mkDataFrame id barsC8) = [] ∧
    causalBottomSignal (mkDataFrame id barsC8) 2 = none ∧
    (detectBuy (mkDataFrame id barsC8) initState 2).pending_buy = false ∧
    ((causalBottomFactors (mkDataFrame id barsC8) 1).getD 1 (0, "", true)).2.1 = "放量" ∧
    ((causalBottomFactors (mkDataFrame id barsC8) 1).getD 1 (0, "", true)).2.2 =
      decide (dVol (mkDataFrame id barsC8) 0 < dVol (mkDataFrame id barsC8) 1) ∧
    dVol (mkDataFrame id barsC8) 0 = 100 ∧ dVol (mkDataFrame id barsC8) 1 = 90 := by
  with_unfolding_all decide

set_option maxRecDepth 4000 in
set_option maxHeartbeats 2000000 in
/-- C2 failing input: `barsC2A` and `barsC2B` agree on bars 0..3 and differ
only at bar 4, yet the causal buy decision of processing step 3 (about
fractal index 2) differs: `calculate_rsi` seeds `rsi[:14]` from the first
15 deltas of the FULL series, `get_data` computes the column once over the
whole frame, and the simulator merely slices it, so bar 4's close leaks
into the RSI factor read at index 2. -/
theorem C2_rsi_seed_lookahead :
    barsC2A.take 4 = barsC2B.take 4 ∧
    (causalBottomSignal (mkDataFrame id barsC2A) 3).isSome = true ∧
    causalBottomSignal (mkDataFrame id barsC2B) 3 = none ∧
    (detectBuy (mkDataFrame id barsC2A) initState 3).pending_buy = true ∧
    (detectBuy (mkDataFrame id barsC2B) initState 3).pending_buy = false ∧
    oLt (ocell (mkDataFrame id barsC2A).rsi 2) 30 = true ∧
    oLt (ocell (mkDataFrame id barsC2B).rsi 2) 30 = false := by
  refine ⟨by with_unfolding_all decide, by with_unfolding_all decide,
    by with_unfolding_all decide, ?_, ?_,
    by with_unfolding_all decide, by with_unfolding_all decide⟩
  · with_unfolding_all decide
  · with_unfolding_all decide

set_option maxRecDepth 4000 in
set_option maxHeartbeats 4000000 in
/-- C9 counterexample: three polling cycles against real fetched windows.
Cycle 1 sees `barsW1` (latest bottom pattern at date 14) and alerts; cycle
2 sees the longer window `barsW2` (latest at date 16) and stores 16; cycle
3 sees `barsW1` again — the same pattern date 14 now differs from the
stored 16 and is still within 3 days of `now = 17`, so the SAME pattern
date produces a second outward alert, refuting "the same pattern date never
produces two outward alerts for the same instrument across cycles". -/
theorem C9_counterexample :
    (monitorBottomCycle id none barsW1 17).2 = true ∧
    (monitorBottomCycle id none barsW1 17).1 = some 14 ∧
    (monitorBottomCycle id (monitorBottomCycle id none barsW1 17).1 barsW2 17).1 =
      some 16 ∧
    (monitorBottomCycle id
      (monitorBottomCycle id (monitorBottomCycle id none barsW1 17).1 barsW2 17).1
      barsW1 17).2 = true ∧
    (monitorBottomCycle id
      (monitorBottomCycle id (monitorBottomCycle id none barsW1 17).1 barsW2 17).1
      barsW1 17).1 = some 14 := by
  refine ⟨?_, ?_, ?_, ?_, ?_⟩
  · with_unfolding_all decide
  · with_unfolding_all decide
  · with_unfolding_all decide
  · with_unfolding_all decide
  · with_unfolding_all decide

/-- C9 amended: per cycle, an outward bottom alert is emitted only if the
most recent detected pattern's date differs from the stored last-signal
date AND is at most 3 days before the current date (both confirmed), and a
cycle that sees the same latest date as the cycle before it never re-alerts
— but the stored value is only the single most recent date, so when the
latest pattern date changes and later reverts to a previously alerted
recent date the same date is alerted again (see the counterexample). -/
theorem C9_dedup_condition :
    (∀ sqrtFn : ℚ → ℚ, ∀ last : Option Int, ∀ bars : List Bar, ∀ now : Int,
      (monitorBottomCycle sqrtFn last bars now).2 = true →
      ∃ d, ((identify_bottom_pattern (mkDataFrame sqrtFn bars)).getLast?).map
              (fun p => p.date) = some d ∧
           some d ≠ last ∧ now - d ≤ 3) ∧
    (∀ sqrtFn : ℚ → ℚ, ∀ last : Option Int, ∀ bars : List Bar, ∀ now now2 : Int,
      (monitorBottomCycle sqrtFn (monitorBottomCycle sqrtFn last bars now).1
        bars now2).2 = false) ∧
    (∀ last latest : Option Int, ∀ now : Int,
      (monitorUpdate last latest now).2 = true →
      ∃ d, latest = some d ∧ some d ≠ last ∧ now - d ≤ 3) := by
  have hup : ∀ last latest : Option Int, ∀ now : Int,
      (monitorUpdate last latest now).2 = true →
      ∃ d, latest = some d ∧ some d ≠ last ∧ now - d ≤ 3 := by
    intro last latest now h
    match latest with
    | none => simp [monitorUpdate] at h
    | some d =>
      refine ⟨d, rfl, ?_, ?_⟩
      · intro hc
        rw [monitorUpdate] at h
        simp [hc.symm] at h
      · by_cases hc : some d = last
        · rw [monitorUpdate] at h
          simp [hc] at h
        · rw [monitorUpdate] at h
          simp only [hc, if_true, ne_eq, not_false_iff, if_pos] at h
          exact of_decide_eq_true h
  refine ⟨fun sqrtFn last bars now h => hup _ _ _ h, ?_, hup⟩
  intro sqrtFn last bars now now2
  set latest := ((identify_bottom_pattern (mkDataFrame sqrtFn bars)).getLast?).map
    (fun p => p.date) with hl
  match hlat : latest with
  | none =>
    simp [monitorBottomCycle, monitorUpdate, ← hl, hlat]
  | some d =>
    simp only [monitorBottomCycle, monitorUpdate, ← hl, hlat]
    by_cases hc : some d = last
    · simp [hc]
    · simp [hc]

set_option maxRecDepth 4000 in
set_option maxHeartbeats 2000000 in
/-- Witness for the amended C9: the alert of cycle 1 on `barsW1` satisfies
the emission conditions (a fresh date within 3 days of now = 17), and
re-running the very same window immediately afterwards raises no second
alert. -/
theorem C9_witness :
    (∃ d, ((identify_bottom_pattern (mkDataFrame id barsW1)).getLast?).map
            (fun p => p.date) = some d ∧
          some d ≠ (none : Option Int) ∧ (17 : Int) - d ≤ 3) ∧
    (monitorBottomCycle id (monitorBottomCycle id none barsW1 17).1 barsW1 17).2 =
      false := by
  have halert : (monitorBottomCycle id none barsW1 17).2 = true := by
    with_unfolding_all decide
  exact ⟨(C9_dedup_condition).1 id none barsW1 17 halert,
    (C9_dedup_condition).2.1 id none barsW1 17 17⟩

set_option maxRecDepth 4000 in
set_option maxHeartbeats 4000000 in
/-- C4 failing input, 底分型微信通知.py simulator on `barsC4` (hold_days 0,
5% fixed stop, trailing stop on): at step 10 a top signal is detected and
`pending_sell` is set, then the fixed stop fires on the very same bar and
`continue`s WITHOUT clearing the flag; after a fresh bottom entry at date
13 the stale flag executes a "顶分型" sale at date 14's open although no
top fractal existed at the detection indices (11, 12) of the second
holding period.  In 底分型.py the risk checks precede the pending-flag
assignment, so this cannot happen there. -/
theorem C4_wx_stale_pending_sell :
    WX.backtest_strategy_realtime (mkDataFrame id barsC4) 0 true 5 true =
      [mkTrade 5 100 ["阳线", "放量", "RSI低位"] 11 80 (stopReason 5),
       mkTrade 13 81 ["阳线", "放量", "下降趋势", "RSI低位"] 14 82 "顶分型"] ∧
    WX.isTopFractal (mkDataFrame id barsC4) 11 = false ∧
    WX.isTopFractal (mkDataFrame id barsC4) 12 = false := by
  refine ⟨?_, ?_, ?_⟩
  · with_unfolding_all decide
  · with_unfolding_all decide
  · with_unfolding_all decide

@[simp] lemma updHighest_buy_price (df : DataFrame) (s : SimState) (i : ℕ) :
    (updHighest df s i).buy_price = s.buy_price := by
  unfold updHighest; split <;> rfl

@[simp] lemma updHighest_buy_date (df : DataFrame) (s : SimState) (i : ℕ) :
    (updHighest df s i).buy_date = s.buy_date := by
  unfold updHighest; split <;> rfl

@[simp] lemma updHighest_buy_reason (df : DataFrame) (s : SimState) (i : ℕ) :
    (updHighest df s i).buy_reason = s.buy_reason := by
  unfold updHighest; split <;> rfl

@[simp] lemma updHighest_holding (df : DataFrame) (s : SimState) (i : ℕ) :
    (updHighest df s i).holding = s.holding := by
  unfold updHighest; split <;> rfl

@[simp] lemma updHighest_pending_buy (df : DataFrame) (s : SimState) (i : ℕ) :
    (updHighest df s i).pending_buy = s.pending_buy := by
  unfold updHighest; split <;> rfl

@[simp] lemma updHighest_pending_buy_reason (df : DataFrame) (s : SimState) (i : ℕ) :
    (updHighest df s i).pending_buy_reason = s.pending_buy_reason := by
  unfold updHighest; split <;> rfl

@[simp] lemma updHighest_pending_sell (df : DataFrame) (s : SimState) (i : ℕ) :
    (updHighest df s i).pending_sell = s.pending_sell := by
  unfold updHighest; split <;> rfl

@[simp] lemma updHighest_pending_sell_reason (df : DataFrame) (s : SimState) (i : ℕ) :
    (updHighest df s i).pending_sell_reason = s.pending_sell_reason := by
  unfold updHighest; split <;> rfl

@[simp] lemma updHighest_trades (df : DataFrame) (s : SimState) (i : ℕ) :
    (updHighest df s i).trades = s.trades := by
  unfold updHighest; split <;> rfl

@[simp] lemma execBuy_trades (df : DataFrame) (s : SimState) (i : ℕ) :
    (execBuy df s i).trades = s.trades := by
  unfold execBuy; split <;> rfl

@[simp] lemma execBuy_pending_sell (df : DataFrame) (s : SimState) (i : ℕ) :
    (execBuy df s i).pending_sell = s.pending_sell := by
  unfold execBuy; split <;> rfl

@[simp] lemma execBuy_pending_sell_reason (df : DataFrame) (s : SimState) (i : ℕ) :
    (execBuy df s i).pending_sell_reason = s.pending_sell_reason := by
  unfold execBuy; split <;> rfl

@[simp] lemma execSell_buy_price (df : DataFrame) (s : SimState) (i : ℕ) :
    (execSell df s i).buy_price = s.buy_price := by
  unfold execSell; split <;> rfl

@[simp] lemma execSell_buy_date (df : DataFrame) (s : SimState) (i : ℕ) :
    (execSell df s i).buy_date = s.buy_date := by
  unfold execSell; split <;> rfl

@[simp] lemma execSell_buy_reason (df : DataFrame) (s : SimState) (i : ℕ) :
    (execSell df s i).buy_reason = s.buy_reason := by
  unfold execSell; split <;> rfl

@[simp] lemma execSell_pending_buy (df : DataFrame) (s : SimState) (i : ℕ) :
    (execSell df s i).pending_buy = s.pending_buy := by
  unfold execSell; split <;> rfl

@[simp] lemma execSell_pending_buy_reason (df : DataFrame) (s : SimState) (i : ℕ) :
    (execSell df s i).pending_buy_reason = s.pending_buy_reason := by
  unfold execSell; split <;> rfl

@[simp] lemma execSell_highest_price (df : DataFrame) (s : SimState) (i : ℕ) :
    (execSell df s i).highest_price = s.highest_price := by
  unfold execSell; split <;> rfl

@[simp] lemma detectBuy_holding (df : DataFrame) (s : SimState) (i : ℕ) :
    (detectBuy df s i).holding = s.holding := by
  unfold detectBuy
  split
  · split <;> rfl
  · rfl

@[simp] lemma detectBuy_buy_price (df : DataFrame) (s : SimState) (i : ℕ) :
    (detectBuy df s i).buy_price = s.buy_price := by
  unfold detectBuy
  split
  · split <;> rfl
  · rfl

@[simp] lemma detectBuy_buy_date (df : DataFrame) (s : SimState) (i : ℕ) :
    (detectBuy df s i).buy_date = s.buy_date := by
  unfold detectBuy
  split
  · split <;> rfl
  · rfl

@[simp] lemma detectBuy_buy_reason (df : DataFrame) (s : SimState) (i : ℕ) :
    (detectBuy df s i).buy_reason = s.buy_reason := by
  unfold detectBuy
  split
  · split <;> rfl
  · rfl

@[simp] lemma detectBuy_highest_price (df : DataFrame) (s : SimState) (i : ℕ) :
    (detectBuy df s i).highest_price = s.highest_price := by
  unfold detectBuy
  split
  · split <;> rfl
  · rfl

@[simp] lemma detectBuy_pending_sell (df : DataFrame) (s : SimState) (i : ℕ) :
    (detectBuy df s i).pending_sell = s.pending_sell := by
  unfold detectBuy
  split
  · split <;> rfl
  · rfl

@[simp] lemma detectBuy_pending_sell_reason (df : DataFrame) (s : SimState) (i : ℕ) :
    (detectBuy df s i).pending_sell_reason = s.pending_sell_reason := by
  unfold detectBuy
  split
  · split <;> rfl
  · rfl

@[simp] lemma detectBuy_trades (df : DataFrame) (s : SimState) (i : ℕ) :
    (detectBuy df s i).trades = s.trades := by
  unfold detectBuy
  split
  · split <;> rfl
  · rfl

@[simp] lemma sellRiskBlock_buy_price (us : Bool) (sp : ℚ) (ut : Bool)
    (df : DataFrame) (s : SimState) (i : ℕ) :
    (sellRiskBlock us sp ut df s i).buy_price = s.buy_price := by
  unfold sellRiskBlock
  split
  · split
    all_goals
      split
      · rfl
      · split
        · rfl
        · dsimp only
          split <;> rfl
  · rfl

@[simp] lemma sellRiskBlock_buy_date (us : Bool) (sp : ℚ) (ut : Bool)
    (df : DataFrame) (s : SimState) (i : ℕ) :
    (sellRiskBlock us sp ut df s i).buy_date = s.buy_date := by
  unfold sellRiskBlock
  split
  · split
    all_goals
      split
      · rfl
      · split
        · rfl
        · dsimp only
          split <;> rfl
  · rfl

@[simp] lemma sellRiskBlock_buy_reason (us : Bool) (sp : ℚ) (ut : Bool)
    (df : DataFrame) (s : SimState) (i : ℕ) :
    (sellRiskBlock us sp ut df s i).buy_reason = s.buy_reason := by
  unfold sellRiskBlock
  split
  · split
    all_goals
      split
      · rfl
      · split
        · rfl
        · dsimp only
          split <;> rfl
  · rfl

@[simp] lemma sellRiskBlock_pending_buy (us : Bool) (sp : ℚ) (ut : Bool)
    (df : DataFrame) (s : SimState) (i : ℕ) :
    (sellRiskBlock us sp ut df s i).pending_buy = s.pending_buy := by
  unfold sellRiskBlock
  split
  · split
    all_goals
      split
      · rfl
      · split
        · rfl
        · dsimp only
          split <;> rfl
  · rfl

@[simp] lemma sellRiskBlock_pending_buy_reason (us : Bool) (sp : ℚ) (ut : Bool)
    (df : DataFrame) (s : SimState) (i : ℕ) :
    (sellRiskBlock us sp ut df s i).pending_buy_reason = s.pending_buy_reason := by
  unfold sellRiskBlock
  split
  · split
    all_goals
      split
      · rfl
      · split
        · rfl
        · dsimp only
          split <;> rfl
  · rfl

@[simp] lemma sellRiskBlock_highest_price (us : Bool) (sp : ℚ) (ut : Bool)
    (df : DataFrame) (s : SimState) (i : ℕ) :
    (sellRiskBlock us sp ut df s i).highest_price = s.highest_price := by
  unfold sellRiskBlock
  split
  · split
    all_goals
      split
      · rfl
      · split
        · rfl
        · dsimp only
          split <;> rfl
  · rfl

lemma sellRiskBlock_not_holding (us : Bool) (sp : ℚ) (ut : Bool)
    (df : DataFrame) (s : SimState) (i : ℕ) (h : s.holding = false) :
    sellRiskBlock us sp ut df s i = s := by
  unfold sellRiskBlock
  simp [h]

lemma execBuy_fire (df : DataFrame) (s : SimState) (i : ℕ)
    (h1 : s.pending_buy = true) (h2 : s.holding = false) :
    execBuy df s i =
      { s with buy_price := dOpen df i, buy_date := dDate df i,
               buy_reason := s.pending_buy_reason, holding := true,
               highest_price := dOpen df i, pending_buy := false } := by
  unfold execBuy; rw [h1, h2]; rfl

lemma execBuy_skip (df : DataFrame) (s : SimState) (i : ℕ)
    (h : (s.pending_buy && !s.holding) = false) :
    execBuy df s i = s := by
  unfold execBuy; rw [h]; rfl

lemma execSell_fire (df : DataFrame) (s : SimState) (i : ℕ)
    (h1 : s.pending_sell = true) (h2 : s.holding = true) :
    execSell df s i =
      { s with trades := s.trades ++ [mkTrade s.buy_date s.buy_price
                 s.buy_reason (dDate df i) (dOpen df i) s.pending_sell_reason],
               holding := false, pending_sell := false } := by
  unfold execSell; rw [h1, h2]; rfl

lemma execSell_skip (df : DataFrame) (s : SimState) (i : ℕ)
    (h : (s.pending_sell && s.holding) = false) :
    execSell df s i = s := by
  unfold execSell; rw [h]; rfl

lemma detectBuy_skip (df : DataFrame) (s : SimState) (i : ℕ)
    (h : (!s.holding && !s.pending_buy && decide (2 ≤ i)) = false) :
    detectBuy df s i = s := by
  unfold detectBuy; rw [h]; rfl

lemma sellRiskBlock_stop (us : Bool) (sp : ℚ) (ut : Bool)
    (df : DataFrame) (s : SimState) (i : ℕ)
    (h1 : s.holding = true) (h2 : s.pending_sell = false) (h3 : us = true)
    (h4 : dClose df i ≤ s.buy_price * (1 - sp / 100)) :
    sellRiskBlock us sp ut df s i =
      { s with trades := s.trades ++ [mkTrade s.buy_date s.buy_price
                 s.buy_reason (dDate df i) (dClose df i) (stopReason sp)],
               holding := false } := by
  unfold sellRiskBlock
  rw [h1, h2, h3, decide_eq_true h4]
  rfl

lemma sellRiskBlock_trail (us : Bool) (sp : ℚ) (ut : Bool)
    (df : DataFrame) (s : SimState) (i : ℕ)
    (h1 : s.holding = true) (h2 : s.pending_sell = false)
    (h3 : (us && decide (dClose df i ≤ s.buy_price * (1 - sp / 100))) = false)
    (h4 : ut = true) (h5 : s.buy_price < s.highest_price)
    (h6 : dClose df i ≤ s.highest_price * 0.95) :
    sellRiskBlock us sp ut df s i =
      { s with trades := s.trades ++ [mkTrade s.buy_date s.buy_price
                 s.buy_reason (dDate df i) (dClose df i) trailReason],
               holding := false } := by
  unfold sellRiskBlock
  rw [h1, h2, h3, h4, decide_eq_true h5, decide_eq_true h6]
  rfl

lemma sellRiskBlock_else (us : Bool) (sp : ℚ) (ut : Bool)
    (df : DataFrame) (s : SimState) (i : ℕ)
    (h1 : s.holding = true) (h2 : s.pending_sell = false)
    (h3 : (us && decide (dClose df i ≤ s.buy_price * (1 - sp / 100))) = false)
    (h4 : (ut && decide (s.buy_price < s.highest_price) &&
      decide (dClose df i ≤ s.highest_price * 0.95)) = false) :
    sellRiskBlock us sp ut df s i =
      (if (if 2 ≤ i then causalTopScore df i else none).isSome then
        { s with pending_sell := true, pending_sell_reason := "顶分型" }
      else s) := by
  unfold sellRiskBlock
  rw [h1, h2, h3, h4]
  rfl

lemma sellRiskBlock_trades_cases (us : Bool) (sp : ℚ) (ut : Bool)
    (df : DataFrame) (s : SimState) (i : ℕ) :
    (sellRiskBlock us sp ut df s i).trades = s.trades ∨
    ∃ t : Trade, (sellRiskBlock us sp ut df s i).trades = s.trades ++ [t] ∧
      t.sell_price = dClose df i ∧ t.sell_date = dDate df i ∧
      (t.sell_reason = stopReason sp ∨ t.sell_reason = trailReason) := by
  unfold sellRiskBlock
  split
  · split
    all_goals
      split
      · right; exact ⟨_, rfl, rfl, rfl, Or.inl rfl⟩
      · split
        · right; exact ⟨_, rfl, rfl, rfl, Or.inr rfl⟩
        · dsimp only
          split
          · left; rfl
          · left; rfl
  · left; rfl

set_option maxHeartbeats 1000000 in
/-- **C3.** In the 底分型.py simulator, pattern-signal fills execute at the
open of the bar after the signal bar and never at the signal bar itself,
while risk exits fill at the close of the bar on which they trigger: (1) a
pending entry fills at this bar's open, recording open as entry price and
resetting the peak tracker to it; (2) a pending top-pattern exit fills at
this bar's open with the recorded reason; (3) when flat with no pending
entry, a step changes no position or trade state beyond flags, so a fresh
signal never fills on its own bar; (4) with no pending exit, any trade a
step appends is a risk exit filled at this bar's close with the stop or
trailing reason; (5) when holding with no pending exit and the fixed stop
condition holds, the step closes the trade at this bar's close with the
stop reason. -/
theorem C3_fill_prices (us : Bool) (sp : ℚ) (ut : Bool)
    (df : DataFrame) (s : SimState) (i : ℕ) :
    (s.pending_buy = true → s.holding = false →
      (step us sp ut df s i).buy_price = dOpen df i ∧
      (step us sp ut df s i).buy_date = dDate df i ∧
      (step us sp ut df s i).buy_reason = s.pending_buy_reason ∧
      (step us sp ut df s i).highest_price = dOpen df i) ∧
    (s.pending_sell = true → s.holding = true →
      (step us sp ut df s i).trades =
        s.trades ++ [mkTrade s.buy_date s.buy_price s.buy_reason
          (dDate df i) (dOpen df i) s.pending_sell_reason]) ∧
    (s.holding = false → s.pending_buy = false →
      (step us sp ut df s i).holding = false ∧
      (step us sp ut df s i).trades = s.trades ∧
      (step us sp ut df s i).buy_price = s.buy_price) ∧
    (s.pending_sell = false →
      (step us sp ut df s i).trades = s.trades ∨
      ∃ t : Trade, (step us sp ut df s i).trades = s.trades ++ [t] ∧
        t.sell_price = dClose df i ∧ t.sell_date = dDate df i ∧
        (t.sell_reason = stopReason sp ∨ t.sell_reason = trailReason)) ∧
    (s.holding = true → s.pending_sell = false → us = true →
      dClose df i ≤ s.buy_price * (1 - sp / 100) →
      (step us sp ut df s i).trades =
        s.trades ++ [mkTrade s.buy_date s.buy_price s.buy_reason
          (dDate df i) (dClose df i) (stopReason sp)] ∧
      (step us sp ut df s i).holding = false) := by
  refine ⟨?_, ?_, ?_, ?_, ?_⟩
  · intro hpb hh
    unfold step
    have h1 : (updHighest df s i).pending_buy = true := by simp [hpb]
    have h2 : (updHighest df s i).holding = false := by simp [hh]
    rw [execBuy_fire df (updHighest df s i) i h1 h2]
    simp
  · intro hps hh
    unfold step
    rw [execBuy_skip df _ i (by simp [hh])]
    rw [execSell_fire df _ i (by simp [hps]) (by simp [hh])]
    rw [sellRiskBlock_not_holding us sp ut df _ i (by simp)]
    simp
  · intro hh hpb
    unfold step
    rw [execBuy_skip df _ i (by simp [hpb])]
    rw [execSell_skip df _ i (by simp [hh])]
    rw [sellRiskBlock_not_holding us sp ut df _ i (by simp [hh])]
    exact ⟨by simp [hh], by simp, by simp⟩
  · intro hps
    unfold step
    rw [execSell_skip df _ i (by simp [hps])]
    rcases sellRiskBlock_trades_cases us sp ut df
        (detectBuy df (execBuy df (updHighest df s i) i) i) i with
      h | ⟨t, ht, h3, h4, h5⟩
    · left; rw [h]; simp
    · right; exact ⟨t, by rw [ht]; simp, h3, h4, h5⟩
  · intro hh hps hus hc
    unfold step
    rw [execBuy_skip df _ i (by simp [hh])]
    rw [execSell_skip df _ i (by simp [hps])]
    rw [detectBuy_skip df _ i (by simp [hh])]
    rw [sellRiskBlock_stop us sp ut df _ i (by simp [hh]) (by simp [hps]) hus
      (by simpa using hc)]
    exact ⟨by simp, by simp⟩

set_option maxRecDepth 4000 in
set_option maxHeartbeats 2000000 in
/-- Witness for C3 at a concrete pending-entry state: on `barsC7A` at step
index 2 the deferred entry fills at that bar's open. -/
theorem C3_witness :
    sC3.pending_buy = true ∧ sC3.holding = false ∧
    (step true 5 true (mkDataFrame id barsC7A) sC3 2).buy_price =
      dOpen (mkDataFrame id barsC7A) 2 ∧
    (step true 5 true (mkDataFrame id barsC7A) sC3 2).buy_date =
      dDate (mkDataFrame id barsC7A) 2 ∧
    (step true 5 true (mkDataFrame id barsC7A) sC3 2).buy_reason =
      sC3.pending_buy_reason ∧
    (step true 5 true (mkDataFrame id barsC7A) sC3 2).highest_price =
      dOpen (mkDataFrame id barsC7A) 2 := by
  have h1 : sC3.pending_buy = true := rfl
  have h2 : sC3.holding = false := rfl
  obtain ⟨a, b, c, d⟩ :=
    (C3_fill_prices true 5 true (mkDataFrame id barsC7A) sC3 2).1 h1 h2
  exact ⟨h1, h2, a, b, c, d⟩

set_option maxRecDepth 4000 in
set_option maxHeartbeats 4000000 in
/-- **C7.** While holding with no pending exit and with the fixed stop not
firing, the trailing stop of 底分型.py fires exactly when the in-position
peak exceeds the entry price and the close is at most 95% of the peak,
filling at this bar's close with the trailing-stop reason (boundary
inclusive).  Concretely, for entry 100 and peak 120 the stop level is
120 * 0.95 = 114: a close of 114.01 leaves the state unchanged, while a
close of exactly 114 exits at 114 with reason 跟踪止损 -5%. -/
theorem C7_trailing_stop_boundary :
    (∀ (us : Bool) (sp : ℚ) (df : DataFrame) (s : SimState) (i : ℕ),
      s.holding = true → s.pending_sell = false →
      (us && decide (dClose df i ≤ s.buy_price * (1 - sp / 100))) = false →
      (sellRiskBlock us sp true df s i =
        { s with trades := s.trades ++ [mkTrade s.buy_date s.buy_price
                   s.buy_reason (dDate df i) (dClose df i) trailReason],
                 holding := false } ↔
       s.buy_price < s.highest_price ∧
         dClose df i ≤ s.highest_price * 0.95)) ∧
    (120 : ℚ) * 0.95 = 114 ∧
    step true 5 true (mkDataFrame id barsC7A) stateC7 2 = stateC7 ∧
    (step true 5 true (mkDataFrame id barsC7B) stateC7 2).trades =
      [mkTrade 0 100 [] 3 114 trailReason] ∧
    (step true 5 true (mkDataFrame id barsC7B) stateC7 2).holding = false := by
  refine ⟨?_, by norm_num, ?_, ?_, ?_⟩
  · intro us sp df s i h1 h2 h3
    constructor
    · intro heq
      by_contra hne
      have hcond : (true && decide (s.buy_price < s.highest_price) &&
          decide (dClose df i ≤ s.highest_price * 0.95)) = false := by
        rcases not_and_or.mp hne with h | h <;> simp [h]
      have htr : (sellRiskBlock us sp true df s i).trades = s.trades := by
        rw [sellRiskBlock_else us sp true df s i h1 h2 h3 hcond]
        split <;> first | rfl | (split <;> rfl)
      rw [heq] at htr
      have hlen := congrArg List.length htr
      simp at hlen
    · rintro ⟨ha, hb⟩
      exact sellRiskBlock_trail us sp true df s i h1 h2 h3 rfl ha hb
  · with_unfolding_all decide
  · with_unfolding_all decide
  · with_unfolding_all decide

set_option maxRecDepth 4000 in
set_option maxHeartbeats 4000000 in
/-- Witness for C7 at the boundary scenario: entry 100, peak 120, close
exactly 114 on `barsC7B`. -/
theorem C7_witness :
    stateC7.holding = true ∧ stateC7.pending_sell = false ∧
    (true && decide (dClose (mkDataFrame id barsC7B) 2 ≤
      stateC7.buy_price * (1 - (5 : ℚ) / 100))) = false ∧
    (sellRiskBlock true 5 true (mkDataFrame id barsC7B) stateC7 2 =
      { stateC7 with trades := stateC7.trades ++ [mkTrade stateC7.buy_date
                       stateC7.buy_price stateC7.buy_reason
                       (dDate (mkDataFrame id barsC7B) 2)
                       (dClose (mkDataFrame id barsC7B) 2) trailReason],
                     holding := false } ↔
      stateC7.buy_price < stateC7.highest_price ∧
      dClose (mkDataFrame id barsC7B) 2 ≤ stateC7.highest_price * 0.95) := by
  have h1 : stateC7.holding = true := rfl
  have h2 : stateC7.pending_sell = false := rfl
  have h3 : (true && decide (dClose (mkDataFrame id barsC7B) 2 ≤
      stateC7.buy_price * (1 - (5 : ℚ) / 100))) = false := by
    with_unfolding_all decide
  exact ⟨h1, h2, h3, C7_trailing_stop_boundary.1 true 5
    (mkDataFrame id barsC7B) stateC7 2 h1 h2 h3⟩

lemma reasonsOK_updHighest (sp : ℚ) (df : DataFrame) (s : SimState) (i : ℕ)
    (h : reasonsOK sp s) : reasonsOK sp (updHighest df s i) := by
  refine ⟨fun t ht => h.1 t (by simpa using ht), fun hp => ?_⟩
  have h2 := h.2 (by simpa using hp)
  simpa using h2

lemma reasonsOK_execBuy (sp : ℚ) (df : DataFrame) (s : SimState) (i : ℕ)
    (h : reasonsOK sp s) : reasonsOK sp (execBuy df s i) := by
  refine ⟨fun t ht => h.1 t (by simpa using ht), fun hp => ?_⟩
  have h2 := h.2 (by simpa using hp)
  unfold execBuy
  split <;> simpa using h2

lemma reasonsOK_detectBuy (sp : ℚ) (df : DataFrame) (s : SimState) (i : ℕ)
    (h : reasonsOK sp s) : reasonsOK sp (detectBuy df s i) := by
  refine ⟨fun t ht => h.1 t (by simpa using ht), fun hp => ?_⟩
  have h2 := h.2 (by simpa using hp)
  unfold detectBuy
  split
  · split <;> simpa using h2
  · simpa using h2

lemma reasonsOK_execSell (sp : ℚ) (df : DataFrame) (s : SimState) (i : ℕ)
    (h : reasonsOK sp s) : reasonsOK sp (execSell df s i) := by
  unfold execSell
  split
  · rename_i hc
    rw [Bool.and_eq_true] at hc
    refine ⟨fun t ht => ?_, fun hp => by simp at hp⟩
    simp only [List.mem_append, List.mem_singleton] at ht
    rcases ht with ht | ht
    · exact h.1 t ht
    · subst ht
      exact Or.inl (h.2 hc.1)
  · exact h

lemma reasonsOK_sellRiskBlock (us : Bool) (sp : ℚ) (ut : Bool)
    (df : DataFrame) (s : SimState) (i : ℕ)
    (h : reasonsOK sp s) : reasonsOK sp (sellRiskBlock us sp ut df s i) := by
  unfold sellRiskBlock
  split
  · split
    all_goals
      split
      · refine ⟨fun t ht => ?_, fun hp => h.2 (by simpa using hp)⟩
        simp only [List.mem_append, List.mem_singleton] at ht
        rcases ht with ht | ht
        · exact h.1 t ht
        · subst ht; exact Or.inr (Or.inl rfl)
      · split
        · refine ⟨fun t ht => ?_, fun hp => h.2 (by simpa using hp)⟩
          simp only [List.mem_append, List.mem_singleton] at ht
          rcases ht with ht | ht
          · exact h.1 t ht
          · subst ht; exact Or.inr (Or.inr rfl)
        · dsimp only
          split
          · exact ⟨fun t ht => h.1 t (by simpa using ht), fun hp => rfl⟩
          · exact h
  · exact h

lemma step_reasonsOK (us : Bool) (sp : ℚ) (ut : Bool)
    (df : DataFrame) (s : SimState) (i : ℕ)
    (h : reasonsOK sp s) : reasonsOK sp (step us sp ut df s i) :=
  reasonsOK_sellRiskBlock us sp ut df _ i
    (reasonsOK_detectBuy sp df _ i
      (reasonsOK_execSell sp df _ i
        (reasonsOK_execBuy sp df _ i
          (reasonsOK_updHighest sp df s i h))))

lemma foldl_reasonsOK (us : Bool) (sp : ℚ) (ut : Bool) (df : DataFrame)
    (l : List ℕ) (s : SimState) (h : reasonsOK sp s) :
    reasonsOK sp (l.foldl (fun s i => step us sp ut df s i) s) := by
  induction l generalizing s with
  | nil => exact h
  | cons a l ih =>
    exact ih (step us sp ut df s a) (step_reasonsOK us sp ut df s a h)

lemma runSim_reasonsOK (us : Bool) (sp : ℚ) (ut : Bool) (df : DataFrame) :
    reasonsOK sp (runSim us sp ut df) := by
  unfold runSim
  refine foldl_reasonsOK us sp ut df _ initState ⟨fun t ht => ?_, fun hp => ?_⟩
  · simp [initState] at ht
  · simp [initState] at hp

/-- **C10.** The 底分型.py backtest ignores its `hold_days` parameter: two
runs on the same frame with different `hold_days` give identical trade
lists and identical aggregate statistics, and no trade it emits ever
carries a max-hold sell reason — every sell reason is the deferred
top-pattern exit, the fixed stop, the trailing stop, or the end-of-data
force close.  The parallel 底分型微信通知.py implementation, by contrast,
does apply the max-hold exit: while holding, when neither the fixed stop
nor the trailing stop fires and days held have reached `hold_days > 0`,
its risk chain closes the position at this bar's close with the
max-hold reason. -/
theorem C10_hold_days_unused :
    (∀ (df : DataFrame) (h1 h2 : Int) (us : Bool) (sp : ℚ) (ut : Bool),
      backtest_strategy_realtime df h1 us sp ut =
        backtest_strategy_realtime df h2 us sp ut ∧
      mkStats (backtest_strategy_realtime df h1 us sp ut) =
        mkStats (backtest_strategy_realtime df h2 us sp ut)) ∧
    (∀ (df : DataFrame) (hd : Int) (us : Bool) (sp : ℚ) (ut : Bool),
      ∀ t ∈ backtest_strategy_realtime df hd us sp ut,
        t.sell_reason = "顶分型" ∨ t.sell_reason = stopReason sp ∨
        t.sell_reason = trailReason ∨ t.sell_reason = "回测结束") ∧
    (∀ (us : Bool) (sp : ℚ) (ut : Bool) (hd d : Int)
       (df : DataFrame) (s : WX.WState) (i : ℕ),
      s.holding = true →
      (s.holding && us &&
        decide (dClose df i ≤ s.buy_price * (1 - sp / 100))) = false →
      (s.holding && ut && decide (s.buy_price < s.highest_price) &&
        decide (dClose df i ≤ s.highest_price * 0.95)) = false →
      s.buy_date = some d → 0 < hd → hd ≤ dDate df i - d →
      WX.riskChain us sp ut hd df s i =
        { s with trades := s.trades ++ [mkTrade d s.buy_price s.buy_reason
                   (dDate df i) (dClose df i) (WX.maxHoldReason hd)],
                 holding := false, buy_price := 0, buy_date := none,
                 highest_price := 0 }) := by
  refine ⟨fun df h1 h2 us sp ut => ⟨rfl, rfl⟩, ?_, ?_⟩
  · intro df hd us sp ut t ht
    have hr := runSim_reasonsOK us sp ut df
    simp only [backtest_strategy_realtime] at ht
    split at ht
    · simp only [List.mem_append, List.mem_singleton] at ht
      rcases ht with ht | ht
      · rcases hr.1 t ht with h | h | h
        · exact Or.inl h
        · exact Or.inr (Or.inl h)
        · exact Or.inr (Or.inr (Or.inl h))
      · subst ht
        exact Or.inr (Or.inr (Or.inr rfl))
    · rcases hr.1 t ht with h | h | h
      · exact Or.inl h
      · exact Or.inr (Or.inl h)
      · exact Or.inr (Or.inr (Or.inl h))
  · intro us sp ut hd d df s i h1 h2 h3 hbd h5 h6
    unfold WX.riskChain
    rw [h2, h3, hbd]
    simp only [Option.getD_some, Option.isSome_some, Bool.and_true, h1,
      Bool.true_and, decide_eq_true h5, decide_eq_true h6]
    rfl

set_option maxRecDepth 4000 in
set_option maxHeartbeats 4000000 in
/-- Witness for C10: a concrete max-hold exit of the 微信通知 risk chain —
bought at date 1 for 100, two days later with neither stop firing the
position is closed at that bar's close with the max-hold reason. -/
theorem C10_witness :
    sC10.holding = true ∧
    (sC10.holding && true &&
      decide (dClose (mkDataFrame id barsC7A) 2 ≤
        sC10.buy_price * (1 - (5 : ℚ) / 100))) = false ∧
    (sC10.holding && true && decide (sC10.buy_price < sC10.highest_price) &&
      decide (dClose (mkDataFrame id barsC7A) 2 ≤
        sC10.highest_price * 0.95)) = false ∧
    sC10.buy_date = some 1 ∧ (0 : Int) < 2 ∧
    (2 : Int) ≤ dDate (mkDataFrame id barsC7A) 2 - 1 ∧
    WX.riskChain true 5 true 2 (mkDataFrame id barsC7A) sC10 2 =
      { sC10 with trades := sC10.trades ++ [mkTrade 1 sC10.buy_price
                    sC10.buy_reason (dDate (mkDataFrame id barsC7A) 2)
                    (dClose (mkDataFrame id barsC7A) 2)
                    (WX.maxHoldReason 2)],
                  holding := false, buy_price := 0, buy_date := none,
                  highest_price := 0 } := by
  have h1 : sC10.holding = true := rfl
  have h2 : (sC10.holding && true &&
      decide (dClose (mkDataFrame id barsC7A) 2 ≤
        sC10.buy_price * (1 - (5 : ℚ) / 100))) = false := by
    with_unfolding_all decide
  have h3 : (sC10.holding && true &&
      decide (sC10.buy_price < sC10.highest_price) &&
      decide (dClose (mkDataFrame id barsC7A) 2 ≤
        sC10.highest_price * 0.95)) = false := by
    with_unfolding_all decide
  have hbd : sC10.buy_date = some 1 := rfl
  have h5 : (0 : Int) < 2 := by norm_num
  have h6 : (2 : Int) ≤ dDate (mkDataFrame id barsC7A) 2 - 1 := by
    with_unfolding_all decide
  exact ⟨h1, h2, h3, hbd, h5, h6, C10_hold_days_unused.2.2 true 5 true 2 1
    (mkDataFrame id barsC7A) sC10 2 h1 h2 h3 hbd h5 h6⟩
